import Mathlib

/-!
DGtal Cairo / Display3D scene store: embedding and verified properties.

The development follows `DGtal/io-viewers/CairoViewers/DGtalCairo.h`,
`DGtal/io/DrawWithDisplay3DModifier.h`, `DGtal/base/Modifier.h` and
`DGtal/base/SimpleRandomAccessRangeFromPoint.h`.

Conventions of the embedding:

* a C++ `double` is represented by the rational number it holds; where an integer is
  converted to `double` the rounding of the conversion is applied (`roundToDouble`);
* `std::vector<T>` is a `List T`, `push_back` appends at the end;
* `std::map<std::string, V>` is an association list with at most one binding per key:
  `m[k] = v` overwrites the binding of `k` in place or adds one, `find` returns the binding
  of the key; the iteration order of the C++ container is not represented (no operation of
  the class iterates over a registry);
* a member function that mutates `*this` is a function from the object to the new object;
  where the call may raise an error, and for every `selfDraw` member, the result is an
  `Outcome`: the error raised (if any) together with the state of the object after the call;
* an argument with a default value in the C++ declaration is an `Option`, `none` standing
  for the omitted argument.
-/

namespace DGtal

/-! ## Containers -/

/-- Assignment `m[k] = v` of a `std::map<std::string, V>`. -/
def stdMapAssign {V : Type} : List (String × V) → String → V → List (String × V)
  | [], k, v => [(k, v)]
  | (k', v') :: rest, k, v =>
    if k' = k then (k, v) :: rest else (k', v') :: stdMapAssign rest k v

/-- Lookup `m.find(k)` of a `std::map<std::string, V>`; `none` is `m.end()`. -/
def stdMapFind {V : Type} : List (String × V) → String → Option V
  | [], _ => none
  | (k', v') :: rest, k => if k' = k then some v' else stdMapFind rest k

/-- Effect of `lists.at(lists.size()-1).push_back(a)` on a non-empty vector of vectors
(an empty one is returned as it is). -/
def pushBackLast {α : Type} : List (List α) → α → List (List α)
  | [], _ => []
  | [l], a => [l ++ [a]]
  | l :: l' :: ls, a => l :: pushBackLast (l' :: ls) a

/-- Effect of `lists.at(0).push_back(a)` on a non-empty vector of vectors
(an empty one is returned as it is). -/
def pushBackFirst {α : Type} : List (List α) → α → List (List α)
  | [], _ => []
  | l :: ls, a => (l ++ [a]) :: ls

/-! ## Primitive model -/

/-- Colour with four components, as `QColor(r, g, b, a)`. -/
structure QColor where
  red : Nat
  green : Nat
  blue : Nat
  alpha : Nat
deriving DecidableEq, Repr

/-- Record `DGtalCairo::lineGL`. -/
structure lineGL where
  x1 : Rat
  y1 : Rat
  z1 : Rat
  x2 : Rat
  y2 : Rat
  z2 : Rat
  width : Rat
  R : Nat
  G : Nat
  B : Nat
  T : Nat
deriving DecidableEq, Repr

/-- Record `DGtalCairo::voxelGL`. -/
structure voxelGL where
  x : Int
  y : Int
  z : Int
  R : Nat
  G : Nat
  B : Nat
  T : Nat
  width : Rat
deriving DecidableEq, Repr

/-- Record `DGtalCairo::pointGL`. -/
structure pointGL where
  x : Rat
  y : Rat
  z : Rat
  R : Nat
  G : Nat
  B : Nat
  T : Nat
  size : Rat
deriving DecidableEq, Repr

/-- Record `DGtalCairo::clippingPlaneGL`: the plane `a x + b y + c z + d = 0`. -/
structure clippingPlaneGL where
  a : Rat
  b : Rat
  c : Rat
  d : Rat
deriving DecidableEq, Repr

/-- Record `DGtalCairo::quadGL`. -/
structure quadGL where
  x1 : Rat
  y1 : Rat
  z1 : Rat
  x2 : Rat
  y2 : Rat
  z2 : Rat
  x3 : Rat
  y3 : Rat
  z3 : Rat
  x4 : Rat
  y4 : Rat
  z4 : Rat
  R : Nat
  G : Nat
  B : Nat
  T : Nat
deriving DecidableEq, Repr

/-- The voxel record built by `addVoxel(x, y, z, color, width)`: centre, the four
components of the colour (default `QColor(220, 220, 220)`) and width (default `0.5`). -/
def voxelOf (x y z : Int) (color : Option QColor) (width : Option Rat) : voxelGL :=
  let col := color.getD ⟨220, 220, 220, 255⟩
  ⟨x, y, z, col.red, col.green, col.blue, col.alpha, width.getD (1 / 2)⟩

/-- Modelled from the spec: the body of `addClippingPlane`, which consumes the `drawPlane`
argument, is not among the sources. The data model attaches a visibility flag to each
stored plane, so a stored plane is the source record `clippingPlaneGL` with that flag. -/
structure ClippingPlaneEntry where
  plane : clippingPlaneGL
  visible : Bool
deriving DecidableEq, Repr

/-- Handle on a style object (`CountedPtr<DrawableWithDGtalCairo>`), identified by the
object it points to. -/
abbrev StylePtr := Nat

/-- Errors a scene operation reports to its caller. -/
inductive SceneError where
  | NoActiveListError
  | ClippingPlaneCapacityError
  | DegenerateCameraError
deriving DecidableEq, Repr

/-- Result of a call that may raise: the error raised, if any, and the object after the
call. -/
structure Outcome (σ : Type) where
  raised : Option SceneError
  scene : σ
deriving DecidableEq, Repr

/-- Enumeration `DGtalCairo::StreamKey`. -/
inductive StreamKey where
  | addNewList
  | updateDisplay
deriving DecidableEq, Repr

/-- Primitive kinds that are stored in a vector of lists. -/
inductive ListKind where
  | voxel
  | line
  | point
deriving DecidableEq, Repr

/-! ## Class `DGtalCairo` -/

/-- Data members of class `DGtalCairo`. -/
structure DGtalCairo where
  myDefaultBackgroundColor : QColor
  myDefaultColor : QColor
  myCurrentFillColor : QColor
  myCurrentLineColor : QColor
  myIsBackgroundDefault : Bool
  myModes : List (String × String)
  myStyles : List (String × StylePtr)
  myVoxelSetList : List (List voxelGL)
  myLineSetList : List (List lineGL)
  myPointSetList : List (List pointGL)
  myClippingPlaneList : List ClippingPlaneEntry
  myKSSurfelList : List quadGL
  myKSPointelList : List pointGL
  myKSLinelList : List lineGL
  myQuadList : List quadGL
  myListVoxelDepthTest : List Bool
  myNbListe : Nat
  Viewport : List Int
  matrix : List Rat
  camera_position : Rat × Rat × Rat
  camera_direction : Rat × Rat × Rat
  camera_upVector : Rat × Rat × Rat
  ZNear : Rat
  ZFar : Rat
  wireframe : Bool
deriving DecidableEq, Repr

namespace DGtalCairo

/-- Modelled from the spec: the constructor `DGtalCairo()` and `init()` are declared only.
A scene store is created empty: no primitive list, no clipping plane, empty registries. -/
def empty : DGtalCairo where
  myDefaultBackgroundColor := ⟨255, 255, 255, 255⟩
  myDefaultColor := ⟨0, 0, 0, 255⟩
  myCurrentFillColor := ⟨0, 0, 0, 255⟩
  myCurrentLineColor := ⟨0, 0, 0, 255⟩
  myIsBackgroundDefault := true
  myModes := []
  myStyles := []
  myVoxelSetList := []
  myLineSetList := []
  myPointSetList := []
  myClippingPlaneList := []
  myKSSurfelList := []
  myKSPointelList := []
  myKSLinelList := []
  myQuadList := []
  myListVoxelDepthTest := []
  myNbListe := 0
  Viewport := [0, 0, 0, 0]
  matrix := List.replicate 16 0
  camera_position := (0, 0, 0)
  camera_direction := (0, 0, 0)
  camera_upVector := (0, 0, 0)
  ZNear := 0
  ZFar := 0
  wireframe := false

/-- Member `setCameraPosition(x, y, z)`. -/
def setCameraPosition (viewer : DGtalCairo) (x y z : Rat) : DGtalCairo :=
  { viewer with camera_position := (x, y, z) }

/-- Member `setCameraDirection(x, y, z)`. -/
def setCameraDirection (viewer : DGtalCairo) (x y z : Rat) : DGtalCairo :=
  { viewer with camera_direction := (x, y, z) }

/-- Member `setCameraUpVector(x, y, z)`. -/
def setCameraUpVector (viewer : DGtalCairo) (x y z : Rat) : DGtalCairo :=
  { viewer with camera_upVector := (x, y, z) }

/-- Member `setNearFar(near, far)`. -/
def setNearFar (viewer : DGtalCairo) (near far : Rat) : DGtalCairo :=
  { viewer with ZNear := near, ZFar := far }

/-- Member `setWireFrame(wf)`. -/
def setWireFrame (viewer : DGtalCairo) (wf : Bool) : DGtalCairo :=
  { viewer with wireframe := wf }

/-- Modelled from the spec: the body of `createNewVoxelList` is not among the sources.
It creates a new empty voxel list, which becomes the append target, and records the
depth-test flag of the list (`true` when the argument is omitted); it always succeeds. -/
def createNewVoxelList (viewer : DGtalCairo) (depthTest : Option Bool) : DGtalCairo :=
  { viewer with
    myVoxelSetList := viewer.myVoxelSetList ++ [[]]
    myListVoxelDepthTest := viewer.myListVoxelDepthTest ++ [depthTest.getD true] }

/-- Modelled from the spec: the body of `createNewLineList` is not among the sources.
It creates a new empty line list, which becomes the append target. -/
def createNewLineList (viewer : DGtalCairo) : DGtalCairo :=
  { viewer with myLineSetList := viewer.myLineSetList ++ [[]] }

/-- Modelled from the spec: the body of `createNewPointList` is not among the sources.
It creates a new empty point list, which becomes the append target. -/
def createNewPointList (viewer : DGtalCairo) : DGtalCairo :=
  { viewer with myPointSetList := viewer.myPointSetList ++ [[]] }

/-- Modelled from the spec: the body of `getMode` is not among the sources. It returns the
mode registered for the object name, or the empty string when none has been set. -/
def getMode (viewer : DGtalCairo) (objectName : String) : String :=
  (stdMapFind viewer.myModes objectName).getD ""

/-- Modelled from the spec: the body of `addVoxel` is not among the sources. The voxel is
appended to the current voxel list, the one opened last; the call fails with
`NoActiveListError`, changing nothing, when no voxel list has been opened. The default
colour is `QColor(220, 220, 220)` and the default width `0.5`. -/
def addVoxel (viewer : DGtalCairo) (x y z : Int) (color : Option QColor)
    (width : Option Rat) : Outcome DGtalCairo :=
  if viewer.myVoxelSetList = [] then ⟨some .NoActiveListError, viewer⟩
  else ⟨none, { viewer with
    myVoxelSetList := pushBackLast viewer.myVoxelSetList (voxelOf x y z color width) }⟩

/-- Modelled from the spec: the body of `addPoint` is not among the sources. The point is
appended to the current point list; the call fails with `NoActiveListError`, changing
nothing, when no point list has been opened. Defaults: `QColor(200, 20, 20)`, size `40`. -/
def addPoint (viewer : DGtalCairo) (x y z : Rat) (color : Option QColor)
    (size : Option Rat) : Outcome DGtalCairo :=
  let col := color.getD ⟨200, 20, 20, 255⟩
  let p : pointGL := ⟨x, y, z, col.red, col.green, col.blue, col.alpha, size.getD 40⟩
  if viewer.myPointSetList = [] then ⟨some .NoActiveListError, viewer⟩
  else ⟨none, { viewer with myPointSetList := pushBackLast viewer.myPointSetList p }⟩

/-- Modelled from the spec: the body of `addLine` is not among the sources. The segment is
appended to the current line list; the call fails with `NoActiveListError`, changing
nothing, when no line list has been opened. Defaults: `QColor(20, 20, 20, 200)`,
width `1.5`. -/
def addLine (viewer : DGtalCairo) (x1 y1 z1 x2 y2 z2 : Rat) (color : Option QColor)
    (width : Option Rat) : Outcome DGtalCairo :=
  let col := color.getD ⟨20, 20, 20, 200⟩
  let l : lineGL :=
    ⟨x1, y1, z1, x2, y2, z2, width.getD (3 / 2), col.red, col.green, col.blue, col.alpha⟩
  if viewer.myLineSetList = [] then ⟨some .NoActiveListError, viewer⟩
  else ⟨none, { viewer with myLineSetList := pushBackLast viewer.myLineSetList l }⟩

/-- Modelled from the spec: the body of `addQuad` is not among the sources. Quads are kept
in the single vector `myQuadList`, which exists from construction and is never opened by a
call, so the quad is always appended to it. -/
def addQuad (viewer : DGtalCairo) (x1 y1 z1 x2 y2 z2 x3 y3 z3 x4 y4 z4 : Rat)
    (aColor : QColor) : Outcome DGtalCairo :=
  let q : quadGL := ⟨x1, y1, z1, x2, y2, z2, x3, y3, z3, x4, y4, z4,
    aColor.red, aColor.green, aColor.blue, aColor.alpha⟩
  ⟨none, { viewer with myQuadList := viewer.myQuadList ++ [q] }⟩

/-- Modelled from the spec: the body of `addKSSurfel` is not among the sources. The surfel
is appended to `myKSSurfelList`. Default colour `QColor(180, 180, 250, 255)`. -/
def addKSSurfel (viewer : DGtalCairo) (x1 y1 z1 x2 y2 z2 x3 y3 z3 x4 y4 z4 : Rat)
    (aColor : Option QColor) : Outcome DGtalCairo :=
  let col := aColor.getD ⟨180, 180, 250, 255⟩
  let q : quadGL := ⟨x1, y1, z1, x2, y2, z2, x3, y3, z3, x4, y4, z4,
    col.red, col.green, col.blue, col.alpha⟩
  ⟨none, { viewer with myKSSurfelList := viewer.myKSSurfelList ++ [q] }⟩

/-- Modelled from the spec: the body of `addKSVoxel` is not among the sources. Voxels of
the Khalimsky space are saved in the first vector of `myVoxelSetList`; the call fails with
`NoActiveListError`, changing nothing, when no voxel list has been opened. Default colour
`QColor(255, 180, 250, 255)`; the width is the default voxel width `0.5`. -/
def addKSVoxel (viewer : DGtalCairo) (x y z : Int) (aColor : Option QColor) :
    Outcome DGtalCairo :=
  let col := aColor.getD ⟨255, 180, 250, 255⟩
  let v : voxelGL := ⟨x, y, z, col.red, col.green, col.blue, col.alpha, 1 / 2⟩
  if viewer.myVoxelSetList = [] then ⟨some .NoActiveListError, viewer⟩
  else ⟨none, { viewer with myVoxelSetList := pushBackFirst viewer.myVoxelSetList v }⟩

/-- Modelled from the spec: the body of `addKSPointel` is not among the sources. The
pointel is appended to `myKSPointelList`. Defaults: size `0.1`,
`QColor(200, 20, 20, 255)`. -/
def addKSPointel (viewer : DGtalCairo) (x y z : Rat) (size : Option Rat)
    (color : Option QColor) : Outcome DGtalCairo :=
  let col := color.getD ⟨200, 20, 20, 255⟩
  let p : pointGL := ⟨x, y, z, col.red, col.green, col.blue, col.alpha, size.getD (1 / 10)⟩
  ⟨none, { viewer with myKSPointelList := viewer.myKSPointelList ++ [p] }⟩

/-- Modelled from the spec: the body of `addKSLinel` is not among the sources. The linel is
appended to `myKSLinelList`. Defaults: width `0.02`, `QColor(20, 20, 200, 255)`. -/
def addKSLinel (viewer : DGtalCairo) (x1 y1 z1 x2 y2 z2 : Rat) (width : Option Rat)
    (color : Option QColor) : Outcome DGtalCairo :=
  let col := color.getD ⟨20, 20, 200, 255⟩
  let l : lineGL :=
    ⟨x1, y1, z1, x2, y2, z2, width.getD (1 / 50), col.red, col.green, col.blue, col.alpha⟩
  ⟨none, { viewer with myKSLinelList := viewer.myKSLinelList ++ [l] }⟩

/-- Modelled from the spec: the body of `addClippingPlane` is not among the sources. At
most five clipping planes can be added: the call fails with `ClippingPlaneCapacityError`,
changing nothing, when five planes are already stored; otherwise the plane is stored after
the existing ones with its visibility flag. -/
def addClippingPlane (viewer : DGtalCairo) (a b c d : Rat) (drawPlane : Bool) :
    Outcome DGtalCairo :=
  if viewer.myClippingPlaneList.length < 5 then
    ⟨none, { viewer with
      myClippingPlaneList := viewer.myClippingPlaneList ++ [⟨⟨a, b, c, d⟩, drawPlane⟩] }⟩
  else ⟨some .ClippingPlaneCapacityError, viewer⟩

/-- Modelled from the spec: the body of `setLineColor` is not among the sources. -/
def setLineColor (viewer : DGtalCairo) (aColor : QColor) : DGtalCairo :=
  { viewer with myCurrentLineColor := aColor }

/-- Modelled from the spec: the body of `getLineColor` is not among the sources. -/
def getLineColor (viewer : DGtalCairo) : QColor :=
  viewer.myCurrentLineColor

/-- Modelled from the spec: the body of `setFillColor` is not among the sources. -/
def setFillColor (viewer : DGtalCairo) (aColor : QColor) : DGtalCairo :=
  { viewer with myCurrentFillColor := aColor }

/-- Modelled from the spec: the body of `getFillColor` is not among the sources. -/
def getFillColor (viewer : DGtalCairo) : QColor :=
  viewer.myCurrentFillColor

/-- Modelled from the spec: the body of `operator<<(const QColor &)` is not among the
sources. A colour token sets the default colour for future drawing. -/
def streamColor (viewer : DGtalCairo) (aColor : QColor) : DGtalCairo :=
  { viewer with myDefaultColor := aColor }

/-- Modelled from the spec: the body of `operator<<(const StreamKey &)` is not among the
sources. `addNewList` opens a new list of the kind implied by the context of the call,
given here as `kind` (a voxel list is opened with the default depth-test flag);
`updateDisplay` signals that the scene is complete and changes no stored primitive. -/
def streamKey (viewer : DGtalCairo) (key : StreamKey) (kind : ListKind) : DGtalCairo :=
  match key, kind with
  | .addNewList, .voxel => viewer.createNewVoxelList none
  | .addNewList, .line => viewer.createNewLineList
  | .addNewList, .point => viewer.createNewPointList
  | .updateDisplay, _ => viewer

end DGtalCairo

/-! ## Modifiers of a `DGtalCairo` stream -/

/-- Base class `DrawWithCairoModifier`; it has no data member. -/
structure DrawWithCairoModifier where
deriving DecidableEq, Repr

namespace DrawWithCairoModifier

/-- Member `styleName()`. -/
def styleName (_self : DrawWithCairoModifier) : String := "DrawWithCairoModifier"

/-- Member `defaultStyleCairo(std::string)`: the null pointer. -/
def defaultStyleCairo (_self : DrawWithCairoModifier) (_mode : Option String) :
    Option StylePtr := none

/-- Virtual member `selfDrawCairo(DGtalCairo &)`: empty body. -/
def selfDrawCairo (_self : DrawWithCairoModifier) (viewer : DGtalCairo) :
    Outcome DGtalCairo :=
  ⟨none, viewer⟩

end DrawWithCairoModifier

/-- Modifier `SetMode3DCairo`. -/
structure SetMode3DCairo where
  myClassname : String
  myMode : String
deriving DecidableEq, Repr

/-- Member `SetMode3DCairo::selfDrawCairo`: `viewer.myModes[ myClassname ] = myMode`. -/
def SetMode3DCairo.selfDrawCairo (self : SetMode3DCairo) (viewer : DGtalCairo) :
    Outcome DGtalCairo :=
  ⟨none, { viewer with
    myModes := stdMapAssign viewer.myModes self.myClassname self.myMode }⟩

/-- Modifier `CustomStyle3DCairo`. -/
structure CustomStyle3DCairo where
  myClassname : String
  myStyle : StylePtr
deriving DecidableEq, Repr

/-- Member `CustomStyle3DCairo::styleName`. -/
def CustomStyle3DCairo.styleName (_self : CustomStyle3DCairo) : String := "CustomStyle3D"

/-- Member `CustomStyle3DCairo::selfDrawCairo`:
`viewer.myStyles[ myClassname ] = myStyle`. -/
def CustomStyle3DCairo.selfDrawCairo (self : CustomStyle3DCairo) (viewer : DGtalCairo) :
    Outcome DGtalCairo :=
  ⟨none, { viewer with
    myStyles := stdMapAssign viewer.myStyles self.myClassname self.myStyle }⟩

/-- Modifier `CustomColors3DCairo`. -/
structure CustomColors3DCairo where
  myPenColor : QColor
  myFillColor : QColor
deriving DecidableEq, Repr

/-- Member `CustomColors3DCairo::selfDrawCairo`: sets the fill colour, then the line
colour. -/
def CustomColors3DCairo.selfDrawCairo (self : CustomColors3DCairo) (viewer : DGtalCairo) :
    Outcome DGtalCairo :=
  ⟨none, (viewer.setFillColor self.myFillColor).setLineColor self.myPenColor⟩

/-- Modifier `ClippingPlaneCairo`. -/
structure ClippingPlaneCairo where
  myA : Rat
  myB : Rat
  myC : Rat
  myD : Rat
  myDrawPlane : Bool
deriving DecidableEq, Repr

namespace ClippingPlaneCairo

/-- Constructor `ClippingPlaneCairo(a, b, c, d, drawPlane = true)`. -/
def new (a b c d : Rat) (drawPlane : Option Bool) : ClippingPlaneCairo :=
  ⟨a, b, c, d, drawPlane.getD true⟩

/-- Member `ClippingPlaneCairo::selfDrawCairo`:
`viewer.addClippingPlane(myA, myB, myC, myD, myDrawPlane)`. -/
def selfDrawCairo (self : ClippingPlaneCairo) (viewer : DGtalCairo) : Outcome DGtalCairo :=
  viewer.addClippingPlane self.myA self.myB self.myC self.myD self.myDrawPlane

/-- Member `ClippingPlaneCairo::getEquation`: the contents of the returned array
`r[0..3]`. -/
def getEquation (self : ClippingPlaneCairo) : List Rat :=
  [self.myA, self.myB, self.myC, self.myD]

end ClippingPlaneCairo

/-! ## Streaming into a `DGtalCairo` scene -/

/-- A call on a `DGtalCairo` object: a public member function with its arguments, or a
token sent with `operator<<`. -/
inductive SceneOp where
  | setCameraPosition (x y z : Rat)
  | setCameraDirection (x y z : Rat)
  | setCameraUpVector (x y z : Rat)
  | setNearFar (near far : Rat)
  | setWireFrame (wf : Bool)
  | createNewVoxelList (depthTest : Option Bool)
  | createNewLineList
  | createNewPointList
  | addVoxel (x y z : Int) (color : Option QColor) (width : Option Rat)
  | addPoint (x y z : Rat) (color : Option QColor) (size : Option Rat)
  | addLine (x1 y1 z1 x2 y2 z2 : Rat) (color : Option QColor) (width : Option Rat)
  | addQuad (x1 y1 z1 x2 y2 z2 x3 y3 z3 x4 y4 z4 : Rat) (aColor : QColor)
  | addKSSurfel (x1 y1 z1 x2 y2 z2 x3 y3 z3 x4 y4 z4 : Rat) (aColor : Option QColor)
  | addKSVoxel (x y z : Int) (aColor : Option QColor)
  | addKSPointel (x y z : Rat) (size : Option Rat) (color : Option QColor)
  | addKSLinel (x1 y1 z1 x2 y2 z2 : Rat) (width : Option Rat) (color : Option QColor)
  | addClippingPlane (a b c d : Rat) (drawPlane : Bool)
  | setLineColor (aColor : QColor)
  | setFillColor (aColor : QColor)
  | streamColor (aColor : QColor)
  | streamKey (key : StreamKey) (kind : ListKind)
  | streamModifier (object : DrawWithCairoModifier)
  | streamSetMode3DCairo (object : SetMode3DCairo)
  | streamCustomStyle3DCairo (object : CustomStyle3DCairo)
  | streamCustomColors3DCairo (object : CustomColors3DCairo)
  | streamClippingPlaneCairo (object : ClippingPlaneCairo)
deriving DecidableEq, Repr

namespace DGtalCairo

/-- Effect of one call on the scene. Modelled from the spec: the body of the template
`operator<<(const TDrawableWithDGtalCairo &)` is not among the sources; a streamed object
is drawn at once by its own `selfDrawCairo` on this scene. -/
def perform (viewer : DGtalCairo) : SceneOp → Outcome DGtalCairo
  | .setCameraPosition x y z => ⟨none, viewer.setCameraPosition x y z⟩
  | .setCameraDirection x y z => ⟨none, viewer.setCameraDirection x y z⟩
  | .setCameraUpVector x y z => ⟨none, viewer.setCameraUpVector x y z⟩
  | .setNearFar near far => ⟨none, viewer.setNearFar near far⟩
  | .setWireFrame wf => ⟨none, viewer.setWireFrame wf⟩
  | .createNewVoxelList depthTest => ⟨none, viewer.createNewVoxelList depthTest⟩
  | .createNewLineList => ⟨none, viewer.createNewLineList⟩
  | .createNewPointList => ⟨none, viewer.createNewPointList⟩
  | .addVoxel x y z color width => viewer.addVoxel x y z color width
  | .addPoint x y z color size => viewer.addPoint x y z color size
  | .addLine x1 y1 z1 x2 y2 z2 color width => viewer.addLine x1 y1 z1 x2 y2 z2 color width
  | .addQuad x1 y1 z1 x2 y2 z2 x3 y3 z3 x4 y4 z4 aColor =>
    viewer.addQuad x1 y1 z1 x2 y2 z2 x3 y3 z3 x4 y4 z4 aColor
  | .addKSSurfel x1 y1 z1 x2 y2 z2 x3 y3 z3 x4 y4 z4 aColor =>
    viewer.addKSSurfel x1 y1 z1 x2 y2 z2 x3 y3 z3 x4 y4 z4 aColor
  | .addKSVoxel x y z aColor => viewer.addKSVoxel x y z aColor
  | .addKSPointel x y z size color => viewer.addKSPointel x y z size color
  | .addKSLinel x1 y1 z1 x2 y2 z2 width color =>
    viewer.addKSLinel x1 y1 z1 x2 y2 z2 width color
  | .addClippingPlane a b c d drawPlane => viewer.addClippingPlane a b c d drawPlane
  | .setLineColor aColor => ⟨none, viewer.setLineColor aColor⟩
  | .setFillColor aColor => ⟨none, viewer.setFillColor aColor⟩
  | .streamColor aColor => ⟨none, viewer.streamColor aColor⟩
  | .streamKey key kind => ⟨none, viewer.streamKey key kind⟩
  | .streamModifier object => object.selfDrawCairo viewer
  | .streamSetMode3DCairo object => object.selfDrawCairo viewer
  | .streamCustomStyle3DCairo object => object.selfDrawCairo viewer
  | .streamCustomColors3DCairo object => object.selfDrawCairo viewer
  | .streamClippingPlaneCairo object => object.selfDrawCairo viewer

/-- Scene after a sequence of calls processed in order; a call that raises leaves the
scene in the state it reports and the following calls go on from there. -/
def run (viewer : DGtalCairo) : List SceneOp → DGtalCairo
  | [] => viewer
  | op :: ops => run (viewer.perform op).scene ops

end DGtalCairo

/-- A call of `createNewVoxelList` or of `addVoxel`. -/
inductive VoxelCall where
  | createNewVoxelList (depthTest : Option Bool)
  | addVoxel (x y z : Int) (color : Option QColor) (width : Option Rat)
deriving DecidableEq, Repr

/-- The call as a scene operation. -/
def VoxelCall.toOp : VoxelCall → SceneOp
  | .createNewVoxelList depthTest => .createNewVoxelList depthTest
  | .addVoxel x y z color width => .addVoxel x y z color width

/-- Number of `addVoxel` calls of a sequence that complete without raising when the
sequence is processed in order from the given scene. -/
def DGtalCairo.successfulAdds (viewer : DGtalCairo) : List VoxelCall → Nat
  | [] => 0
  | .createNewVoxelList depthTest :: rest =>
    successfulAdds (viewer.createNewVoxelList depthTest) rest
  | .addVoxel x y z color width :: rest =>
    (if (viewer.addVoxel x y z color width).raised = none then 1 else 0) +
      successfulAdds (viewer.addVoxel x y z color width).scene rest

/-- Voxels of the `addVoxel` calls that come before the first `createNewVoxelList` of the
sequence, in call order: the adds made while the list that was current at the start is
still the current one. -/
def addsBeforeFirstOpen : List VoxelCall → List voxelGL
  | [] => []
  | .createNewVoxelList _ :: _ => []
  | .addVoxel x y z color width :: rest => voxelOf x y z color width :: addsBeforeFirstOpen rest

/-- One list per `createNewVoxelList` call of the sequence, in call order, each holding
the voxels of the `addVoxel` calls made between that call and the next
`createNewVoxelList`, in call order. -/
def listsOpened : List VoxelCall → List (List voxelGL)
  | [] => []
  | .createNewVoxelList _ :: rest => addsBeforeFirstOpen rest :: listsOpened rest
  | .addVoxel _ _ _ _ _ :: rest => listsOpened rest

/-- The depth-test flags of the `createNewVoxelList` calls of the sequence, in call
order. -/
def flagsOpened : List VoxelCall → List Bool
  | [] => []
  | .createNewVoxelList depthTest :: rest => depthTest.getD true :: flagsOpened rest
  | .addVoxel _ _ _ _ _ :: rest => flagsOpened rest

/-- The lists that exist at the start of a sequence, the last of them (the current one)
extended by the given voxels; nothing when no list exists. -/
def extendCurrent : List (List voxelGL) → List voxelGL → List (List voxelGL)
  | [], _ => []
  | [l], vs => [l ++ vs]
  | l :: l' :: ls, vs => l :: extendCurrent (l' :: ls) vs

/-- Total number of voxels held by a vector of voxel lists. -/
def voxelCount (lists : List (List voxelGL)) : Nat :=
  (lists.map List.length).sum

/-- Scene obtained from the empty scene by adding five clipping planes. -/
def sceneWithFivePlanes : DGtalCairo :=
  DGtalCairo.empty.run
    [.addClippingPlane 1 0 0 0 true, .addClippingPlane 0 1 0 0 false,
     .streamClippingPlaneCairo (ClippingPlaneCairo.new 0 0 1 0 none),
     .addClippingPlane 1 1 0 (-3) true, .addClippingPlane 0 0 1 (-2) false]

/-- The `addVoxel` calls with the given arguments, one per entry, in order. -/
def addVoxelCalls (args : List (Int × Int × Int × Option QColor × Option Rat)) :
    List VoxelCall :=
  args.map fun t => .addVoxel t.1 t.2.1 t.2.2.1 t.2.2.2.1 t.2.2.2.2

/-- The voxel records of the given `addVoxel` arguments, in order. -/
def voxelsOf (args : List (Int × Int × Int × Option QColor × Option Rat)) : List voxelGL :=
  args.map fun t => voxelOf t.1 t.2.1 t.2.2.1 t.2.2.2.1 t.2.2.2.2

/-! ## Class `Display3D` and the modifiers of its stream -/

/-- Colour class `DGtal::Color` used by `Display3D`. -/
structure Color where
  red : Nat
  green : Nat
  blue : Nat
  alpha : Nat
deriving DecidableEq, Repr

/-- Modelled from the spec: class `Display3D` is declared in `DGtal/io/Display3D.h`, which
is not among the sources. The members represented are those the modifiers of
`DrawWithDisplay3DModifier.h` use: the mode and style registries, the current colours and
the clipping planes of the scene store. -/
structure Display3D where
  myModes : List (String × String)
  myStyles : List (String × StylePtr)
  myCurrentFillColor : Color
  myCurrentLineColor : Color
  myClippingPlaneList : List ClippingPlaneEntry
deriving DecidableEq, Repr

namespace Display3D

/-- Modelled from the spec: a scene store is created empty. -/
def empty : Display3D where
  myModes := []
  myStyles := []
  myCurrentFillColor := ⟨0, 0, 0, 255⟩
  myCurrentLineColor := ⟨0, 0, 0, 255⟩
  myClippingPlaneList := []

/-- Modelled from the spec: `Display3D::getMode` is not among the sources. It returns the
mode registered for the object name, or the empty string when none has been set. -/
def getMode (display : Display3D) (objectName : String) : String :=
  (stdMapFind display.myModes objectName).getD ""

/-- Modelled from the spec: `Display3D::setFillColor` is not among the sources. -/
def setFillColor (display : Display3D) (aColor : Color) : Display3D :=
  { display with myCurrentFillColor := aColor }

/-- Modelled from the spec: `Display3D::setLineColor` is not among the sources. -/
def setLineColor (display : Display3D) (aColor : Color) : Display3D :=
  { display with myCurrentLineColor := aColor }

/-- Modelled from the spec: `Display3D::addClippingPlane` is not among the sources. The
call fails with `ClippingPlaneCapacityError`, changing nothing, when five planes are
already stored; otherwise the plane is stored after the existing ones with its visibility
flag. -/
def addClippingPlane (display : Display3D) (a b c d : Rat) (drawPlane : Bool) :
    Outcome Display3D :=
  if display.myClippingPlaneList.length < 5 then
    ⟨none, { display with
      myClippingPlaneList := display.myClippingPlaneList ++ [⟨⟨a, b, c, d⟩, drawPlane⟩] }⟩
  else ⟨some .ClippingPlaneCapacityError, display⟩

end Display3D

/-- Base class `DrawWithDisplay3DModifier`; it has no data member. -/
structure DrawWithDisplay3DModifier where
deriving DecidableEq, Repr

namespace DrawWithDisplay3DModifier

/-- Member `styleName()`. -/
def styleName (_self : DrawWithDisplay3DModifier) : String := "DrawWithDisplay3DModifier"

/-- Member `defaultStyleDisplay3D(std::string)`: the null pointer. -/
def defaultStyleDisplay3D (_self : DrawWithDisplay3DModifier) (_mode : Option String) :
    Option StylePtr := none

/-- Virtual member `selfDrawDisplay3D(Display3D &)`: empty body. -/
def selfDrawDisplay3D (_self : DrawWithDisplay3DModifier) (display : Display3D) :
    Outcome Display3D :=
  ⟨none, display⟩

end DrawWithDisplay3DModifier

/-- Modifier `SetMode3D`. -/
structure SetMode3D where
  myClassname : String
  myMode : String
deriving DecidableEq, Repr

/-- Member `SetMode3D::selfDrawDisplay3D`: `display.myModes[ myClassname ] = myMode`. -/
def SetMode3D.selfDrawDisplay3D (self : SetMode3D) (display : Display3D) :
    Outcome Display3D :=
  ⟨none, { display with
    myModes := stdMapAssign display.myModes self.myClassname self.myMode }⟩

/-- Modifier `CustomStyle3D`. -/
structure CustomStyle3D where
  myClassname : String
  myStyle : StylePtr
deriving DecidableEq, Repr

/-- Member `CustomStyle3D::styleName`. -/
def CustomStyle3D.styleName (_self : CustomStyle3D) : String := "CustomStyle3D"

/-- Member `CustomStyle3D::selfDrawDisplay3D`:
`display.myStyles[ myClassname ] = myStyle`. -/
def CustomStyle3D.selfDrawDisplay3D (self : CustomStyle3D) (display : Display3D) :
    Outcome Display3D :=
  ⟨none, { display with
    myStyles := stdMapAssign display.myStyles self.myClassname self.myStyle }⟩

/-- Modifier `CustomColors3D`. -/
structure CustomColors3D where
  myPenColor : Color
  myFillColor : Color
deriving DecidableEq, Repr

/-- Member `CustomColors3D::selfDrawDisplay3D`: sets the fill colour, then the line
colour. -/
def CustomColors3D.selfDrawDisplay3D (self : CustomColors3D) (display : Display3D) :
    Outcome Display3D :=
  ⟨none, (display.setFillColor self.myFillColor).setLineColor self.myPenColor⟩

/-- Modifier `ClippingPlane` of `DrawWithDisplay3DModifier.h`; its base class is
`DrawWithDisplay3DModifier`. -/
structure ClippingPlane where
  myA : Rat
  myB : Rat
  myC : Rat
  myD : Rat
  myDrawPlane : Bool
deriving DecidableEq, Repr

namespace ClippingPlane

/-- Constructor `ClippingPlane(a, b, c, d, drawPlane = true)`. -/
def new (a b c d : Rat) (drawPlane : Option Bool) : ClippingPlane :=
  ⟨a, b, c, d, drawPlane.getD true⟩

/-- The base-class part of a `ClippingPlane` object. -/
def toBase (_self : ClippingPlane) : DrawWithDisplay3DModifier := ⟨⟩

/-- Member `ClippingPlane::selfDrawViewer3D`, the only drawing member the struct defines:
`display.addClippingPlane(myA, myB, myC, myD, myDrawPlane)`. -/
def selfDrawViewer3D (self : ClippingPlane) (display : Display3D) : Outcome Display3D :=
  display.addClippingPlane self.myA self.myB self.myC self.myD self.myDrawPlane

/-- Member `selfDrawDisplay3D` of a `ClippingPlane`: the struct does not override it, so
the call runs the member inherited from `DrawWithDisplay3DModifier`. -/
def selfDrawDisplay3D (self : ClippingPlane) (display : Display3D) : Outcome Display3D :=
  self.toBase.selfDrawDisplay3D display

/-- Member `ClippingPlane::getEquation`: the contents of the returned array `r[0..3]`. -/
def getEquation (self : ClippingPlane) : List Rat :=
  [self.myA, self.myB, self.myC, self.myD]

end ClippingPlane

/-! ## Functors of `DGtal/base/Modifier.h` -/

/-- Point or vector with `n` coordinates of type `T` (`PointVector<n, T>`); `p i` is
`p.at(i)`. -/
abbrev PointVector (n : Nat) (T : Type) := Fin n → T

/-- Point with `n` real coordinates (`RealPointVector<n>`). -/
abbrev RealPointVector (n : Nat) := Fin n → Rat

/-- Number of times the magnitude `a` must be halved to fall below `2^53`: the binary
exponent of the spacing between consecutive `double` values around `a`. The first argument
bounds the number of steps. -/
def doubleShift : Nat → Nat → Nat
  | 0, _ => 0
  | fuel + 1, a => if a < 2 ^ 53 then 0 else doubleShift fuel (a / 2) + 1

/-- Value of the `double` (IEEE 754 binary64, 53 significant bits) that an integer converts
to, rounding to the nearest representable value and to the even one of two equally near. An
integer of magnitude at most `2^53` is represented exactly. -/
def roundToDouble (n : Int) : Int :=
  let a := n.natAbs
  let e := doubleShift a a
  let q := a / 2 ^ e
  let r := a % 2 ^ e
  let m := if 2 ^ e < 2 * r ∨ (2 * r = 2 ^ e ∧ q % 2 = 1) then q + 1 else q
  if n < 0 then -((m * 2 ^ e : Nat) : Int) else ((m * 2 ^ e : Nat) : Int)

/-- Modelled from the spec: class `RealPointVector` is not among the sources. Its
coordinates are of type `double`: construction of a real point from a point with integer
coordinates converts each coordinate to `double`. -/
def RealPointVector.ofPointVector {n : Nat} (v : PointVector n Int) : RealPointVector n :=
  fun i => ((roundToDouble (v i) : Int) : Rat)

/-- Modelled from the spec: class `RealPointVector` is not among the sources. `o /= c`
divides each real coordinate by `c`. The result is given exactly: halving a `double` that
holds an integer only lowers its exponent. -/
def RealPointVector.divAssign {n : Nat} (o : RealPointVector n) (c : Rat) :
    RealPointVector n :=
  fun i => o i / c

/-- Member `Point3dTo2dXY::get`: `Output(tmp.at(0), tmp.at(1))`. -/
def Point3dTo2dXY.get {Coordinate : Type} (p : PointVector 3 Coordinate) :
    PointVector 2 Coordinate :=
  let tmp := p
  ![tmp 0, tmp 1]

/-- Member `Point3dTo2dXZ::get`: `Output(tmp.at(0), tmp.at(2))`. -/
def Point3dTo2dXZ.get {Coordinate : Type} (p : PointVector 3 Coordinate) :
    PointVector 2 Coordinate :=
  let tmp := p
  ![tmp 0, tmp 2]

/-- Member `Point3dTo2dYZ::get`: `Output(tmp.at(1), tmp.at(2))`. -/
def Point3dTo2dYZ.get {Coordinate : Type} (p : PointVector 3 Coordinate) :
    PointVector 2 Coordinate :=
  let tmp := p
  ![tmp 1, tmp 2]

/-- The services of the template parameter `KSpace` (a Khalimsky space of dimension `dim`
with signed cells `SCell`) that the functors call. `sDirs s` lists the directions the
iterator `k.sDirs(s)` enumerates, the first one being `*k.sDirs(s)`. -/
structure KSpace (dim : Nat) (SCell : Type) where
  sKCoords : SCell → PointVector dim Int
  sCoords : SCell → PointVector dim Int
  sDirs : SCell → List Nat
  sIndirectIncident : SCell → Nat → SCell

/-- Member `SCellToMidPoint::get`: `Output o( k.sKCoords(s) ); o /= 2; return o;`. -/
def SCellToMidPoint.get {dim : Nat} {SCell : Type} (k : KSpace dim SCell) (s : SCell) :
    RealPointVector dim :=
  let o := RealPointVector.ofPointVector (k.sKCoords s)
  o.divAssign 2

/-- Member `SCellToCode::get`. The displacement from the pointel that is indirectly
incident to `s` along `*k.sDirs(s)` is compared with the four unit vectors in turn; `none`
stands for a call that gives no value back: the direction iterator designates nothing, or
no comparison succeeds and the function ends without a `return`. -/
def SCellToCode.get {SCell : Type} (k : KSpace 2 SCell) (s : SCell) : Option Char :=
  match k.sDirs s with
  | [] => none
  | d :: _ =>
    let pointel := k.sIndirectIncident s d
    let v : PointVector 2 Int := fun i => k.sKCoords s i - k.sKCoords pointel i
    if v = ![1, 0] then some '0'
    else if v = ![0, 1] then some '1'
    else if v = ![-1, 0] then some '2'
    else if v = ![0, -1] then some '3'
    else none

/-- Signed cell of the 2D Khalimsky space: its two Khalimsky coordinates and its sign. A
coordinate is odd along the directions in which the cell is open. -/
structure SignedCell2 where
  x : Int
  y : Int
  positive : Bool
deriving DecidableEq, Repr

namespace SignedCell2

/-- Khalimsky coordinate of the cell along direction `i` (0 or 1). -/
def coord (c : SignedCell2) (i : Nat) : Int := if i = 0 then c.x else c.y

/-- Whether the cell is open along direction `i`. -/
def isOpen (c : SignedCell2) (i : Nat) : Bool := c.coord i % 2 ≠ 0

/-- Whether the direct orientation of the cell along `k` is toward the increasing
coordinates: the sign, reversed once per open direction up to `k`. -/
def direct (c : SignedCell2) (k : Nat) : Bool :=
  ((List.range (k + 1)).filter c.isOpen).foldl (fun v _ => !v) c.positive

/-- The cell moved by `delta` along direction `k`, with the given sign. -/
def moved (c : SignedCell2) (k : Nat) (delta : Int) (sign : Bool) : SignedCell2 :=
  if k = 0 then ⟨c.x + delta, c.y, sign⟩ else ⟨c.x, c.y + delta, sign⟩

end SignedCell2

/-- Modelled from the spec: class `KhalimskySpaceND` is not among the sources, and the spec
leaves Khalimsky spaces to an external collaborator; this is the usual cellular grid of
dimension 2. The digital coordinates are the Khalimsky coordinates halved, `sDirs` lists
the open directions of the cell, and the indirect incident cell along `k` is the
negatively signed neighbour on the side opposite to the direct orientation. -/
def khalimskyPlane : KSpace 2 SignedCell2 where
  sKCoords c := ![c.x, c.y]
  sCoords c := ![c.x / 2, c.y / 2]
  sDirs c := (List.range 2).filter c.isOpen
  sIndirectIncident c k := c.moved k (if c.direct k then -1 else 1) false

/-! ## Class `SimpleRandomAccessRangeFromPoint` -/

/-- Random-access iterator over a sequence (`TIterator`), given by the position it
designates; the position may lie outside the sequence. -/
structure Iterator where
  pos : Int
deriving DecidableEq, Repr

namespace Iterator

/-- Iterator arithmetic `it + n`. -/
def add (it : Iterator) (n : Int) : Iterator := ⟨it.pos + n⟩

/-- Dereference `*it` on the sequence `buf`; `none` when the position is outside the
sequence. -/
def deref {α : Type} (buf : List α) (it : Iterator) : Option α :=
  if 0 ≤ it.pos then buf[it.pos.toNat]? else none

end Iterator

/-- Adaptor `std::reverse_iterator<Iterator>`: it holds the iterator `base` and designates
the element just before it. -/
structure ReverseIterator where
  base : Iterator
deriving DecidableEq, Repr

namespace ReverseIterator

/-- Arithmetic `rit + n` of `std::reverse_iterator`: the base moves back by `n`. -/
def add (rit : ReverseIterator) (n : Int) : ReverseIterator := ⟨rit.base.add (-n)⟩

/-- The position read or written through `*rit`: the one before the base. -/
def target (rit : ReverseIterator) : Iterator := rit.base.add (-1)

/-- Dereference `*rit` on the sequence `buf`. -/
def deref {α : Type} (buf : List α) (rit : ReverseIterator) : Option α :=
  rit.target.deref buf

end ReverseIterator

/-- Data members of class `SimpleRandomAccessRangeFromPoint`; `Point` is
`DistanceFunctor::Point` and `myDistance` the distance functor. -/
structure SimpleRandomAccessRangeFromPoint (Point : Type) where
  myBegin : Iterator
  myEnd : Iterator
  myDistance : Point → Int

namespace SimpleRandomAccessRangeFromPoint

variable {Point : Type}

/-- Constructor from two iterators and one functor. -/
def new (itb ite : Iterator) (aDistance : Point → Int) :
    SimpleRandomAccessRangeFromPoint Point :=
  ⟨itb, ite, aDistance⟩

/-- Member `begin()`. -/
def begin (r : SimpleRandomAccessRangeFromPoint Point) : Iterator := r.myBegin

/-- Member `begin(aPoint)`: `Iterator ( myBegin ) + myDistance ( aPoint )`. -/
def beginAt (r : SimpleRandomAccessRangeFromPoint Point) (aPoint : Point) : Iterator :=
  r.myBegin.add (r.myDistance aPoint)

/-- Member `end()`. -/
def end_ (r : SimpleRandomAccessRangeFromPoint Point) : Iterator := r.myEnd

/-- Member `outputIterator()`. -/
def outputIterator (r : SimpleRandomAccessRangeFromPoint Point) : Iterator := r.myBegin

/-- Member `outputIterator(aPoint)`: `OutputIterator ( myBegin ) + myDistance ( aPoint )`. -/
def outputIteratorAt (r : SimpleRandomAccessRangeFromPoint Point) (aPoint : Point) :
    Iterator :=
  r.myBegin.add (r.myDistance aPoint)

/-- Member `routputIterator()`: `ReverseOutputIterator ( myBegin )`. -/
def routputIterator (r : SimpleRandomAccessRangeFromPoint Point) : ReverseIterator :=
  ⟨r.myBegin⟩

/-- Member `routputIterator(aPoint)`:
`ReverseOutputIterator ( myBegin ) + myDistance ( aPoint )`. -/
def routputIteratorAt (r : SimpleRandomAccessRangeFromPoint Point) (aPoint : Point) :
    ReverseIterator :=
  (ReverseIterator.mk r.myBegin).add (r.myDistance aPoint)

/-- Member `rbegin()`: `ReverseIterator ( this->end() )`. -/
def rbegin (r : SimpleRandomAccessRangeFromPoint Point) : ReverseIterator := ⟨r.end_⟩

/-- Member `rbegin(aPoint)`: `ReverseIterator ( this->end() + myDistance ( aPoint ) )`. -/
def rbeginAt (r : SimpleRandomAccessRangeFromPoint Point) (aPoint : Point) :
    ReverseIterator :=
  ⟨r.end_.add (r.myDistance aPoint)⟩

/-- Member `rend()`: `ReverseIterator ( this->begin() )`. -/
def rend (r : SimpleRandomAccessRangeFromPoint Point) : ReverseIterator := ⟨r.begin⟩

/-- The range `[itb, ite)` lies within the sequence `buf`. -/
def ValidIn {α : Type} (r : SimpleRandomAccessRangeFromPoint Point) (buf : List α) : Prop :=
  0 ≤ r.myBegin.pos ∧ r.myBegin.pos ≤ r.myEnd.pos ∧ r.myEnd.pos ≤ buf.length

/-- The elements of the range `[itb, ite)` of the sequence `buf`, in order. -/
def elements {α : Type} (r : SimpleRandomAccessRangeFromPoint Point) (buf : List α) :
    List α :=
  (buf.drop r.myBegin.pos.toNat).take (r.myEnd.pos - r.myBegin.pos).toNat

/-- The position designates an element of `[itb, ite)`. -/
def Inside (r : SimpleRandomAccessRangeFromPoint Point) (it : Iterator) : Prop :=
  r.myBegin.pos ≤ it.pos ∧ it.pos < r.myEnd.pos

/-- The reverse iterator lies in `[rbegin(), rend())`: its base lies in `(itb, ite]`. -/
def InsideReverse (r : SimpleRandomAccessRangeFromPoint Point) (rit : ReverseIterator) :
    Prop :=
  r.myBegin.pos < rit.base.pos ∧ rit.base.pos ≤ r.myEnd.pos

end SimpleRandomAccessRangeFromPoint

/-- Range over the whole sequence `[10, 20, 30]`, with integer points and the point itself
as its distance to the first element. -/
def rangeOfThree : SimpleRandomAccessRangeFromPoint Int :=
  SimpleRandomAccessRangeFromPoint.new ⟨0⟩ ⟨3⟩ fun p => p

/-! ## Draw order of the export -/

/-- Modelled from the spec: the body of `saveCairo` is not among the sources. One step of
the stable depth sort: the primitive `a` is placed before the first primitive that is
nearer to the camera than it, hence after those at least as far. `depth` is the projected
depth of a primitive, larger when farther from the camera. -/
def insertFarthestFirst {α : Type} (depth : α → Rat) (a : α) : List α → List α
  | [] => [a]
  | b :: rest =>
    if depth b < depth a then a :: b :: rest
    else b :: insertFarthestFirst depth a rest

/-- Modelled from the spec: the body of `saveCairo` is not among the sources. Stable sort
of the primitives of a list on their projected depth, farthest first: the primitives are
taken in append order and each is inserted into the order built so far. -/
def sortFarthestFirst {α : Type} (depth : α → Rat) (list : List α) : List α :=
  list.foldl (fun sorted a => insertFarthestFirst depth a sorted) []

/-- Modelled from the spec: the body of `saveCairo` is not among the sources. Order in
which the primitives of one list are drawn: sorted on depth when the depth-test flag of the
list is true, in append order otherwise. -/
def drawOrder {α : Type} (depth : α → Rat) (depthTest : Bool) (list : List α) : List α :=
  if depthTest then sortFarthestFirst depth list else list

/-- Modelled from the spec: the body of `saveCairo` is not among the sources. Order in
which the voxels of the scene are drawn: the voxel lists in creation order, each in the
draw order its depth-test flag gives. -/
def DGtalCairo.voxelDrawOrder (viewer : DGtalCairo) (depth : voxelGL → Rat) :
    List (List voxelGL) :=
  List.zipWith (fun list flag => drawOrder depth flag list) viewer.myVoxelSetList
    viewer.myListVoxelDepthTest

/-! ## Properties of the containers -/

theorem stdMapFind_assign_same {V : Type} (m : List (String × V)) (k : String) (v : V) :
    stdMapFind (stdMapAssign m k v) k = some v := by
  induction m with
  | nil => simp [stdMapAssign, stdMapFind]
  | cons e rest ih =>
    obtain ⟨k', v'⟩ := e
    by_cases h : k' = k
    · simp [stdMapAssign, stdMapFind, h]
    · simp [stdMapAssign, stdMapFind, h, ih]

theorem stdMapFind_assign_other {V : Type} (m : List (String × V)) (k k' : String) (v : V)
    (hne : k' ≠ k) : stdMapFind (stdMapAssign m k v) k' = stdMapFind m k' := by
  induction m with
  | nil => simp [stdMapAssign, stdMapFind, Ne.symm hne]
  | cons e rest ih =>
    obtain ⟨k0, v0⟩ := e
    by_cases h : k0 = k
    · subst h
      simp [stdMapAssign, stdMapFind, Ne.symm hne]
    · by_cases h' : k0 = k'
      · subst h'
        simp [stdMapAssign, stdMapFind, h]
      · simp [stdMapAssign, stdMapFind, h, h', ih]

theorem stdMapAssign_assign {V : Type} (m : List (String × V)) (k : String) (v1 v2 : V) :
    stdMapAssign (stdMapAssign m k v1) k v2 = stdMapAssign m k v2 := by
  induction m with
  | nil => simp [stdMapAssign]
  | cons e rest ih =>
    obtain ⟨k0, v0⟩ := e
    by_cases h : k0 = k
    · simp [stdMapAssign, h]
    · simp [stdMapAssign, h, ih]

theorem pushBackLast_eq_extendCurrent (lists : List (List voxelGL)) (v : voxelGL) :
    pushBackLast lists v = extendCurrent lists [v] := by
  induction lists with
  | nil => rfl
  | cons l ls ih =>
    cases ls with
    | nil => rfl
    | cons l' ls' => simp [pushBackLast, extendCurrent, ih]

theorem extendCurrent_nil (lists : List (List voxelGL)) : extendCurrent lists [] = lists := by
  induction lists with
  | nil => rfl
  | cons l ls ih =>
    cases ls with
    | nil => simp [extendCurrent]
    | cons l' ls' => simp [extendCurrent, ih]

theorem extendCurrent_extendCurrent (lists : List (List voxelGL)) (xs ys : List voxelGL) :
    extendCurrent (extendCurrent lists xs) ys = extendCurrent lists (xs ++ ys) := by
  induction lists with
  | nil => rfl
  | cons l ls ih =>
    cases ls with
    | nil => simp [extendCurrent]
    | cons l' ls' =>
      cases ls' with
      | nil => simp [extendCurrent]
      | cons l'' ls'' =>
        simp only [extendCurrent] at ih ⊢
        rw [ih]

theorem extendCurrent_opened (lists : List (List voxelGL)) (xs : List voxelGL) :
    extendCurrent (lists ++ [[]]) xs = lists ++ [xs] := by
  induction lists with
  | nil => simp [extendCurrent]
  | cons l ls ih =>
    cases ls with
    | nil => simp [extendCurrent]
    | cons l' ls' =>
      have h : extendCurrent (l' :: (ls' ++ [[]])) xs = l' :: (ls' ++ [xs]) := by
        simpa using ih
      cases ls' with
      | nil => simp [extendCurrent]
      | cons l'' ls'' =>
        simp only [List.cons_append, extendCurrent] at h ⊢
        rw [h]

theorem voxelCount_pushBackLast (lists : List (List voxelGL)) (v : voxelGL)
    (hne : lists ≠ []) : voxelCount (pushBackLast lists v) = voxelCount lists + 1 := by
  induction lists with
  | nil => exact absurd rfl hne
  | cons l ls ih =>
    cases ls with
    | nil => simp [pushBackLast, voxelCount]
    | cons l' ls' =>
      have h := ih (by simp)
      simp only [pushBackLast, voxelCount, List.map_cons, List.sum_cons] at h ⊢
      omega

theorem pushBackLast_length {α : Type} (lists : List (List α)) (a : α) :
    (pushBackLast lists a).length = lists.length := by
  induction lists with
  | nil => rfl
  | cons l ls ih =>
    cases ls with
    | nil => rfl
    | cons l' ls' => simpa [pushBackLast] using ih

theorem pushBackLast_dropLast {α : Type} (lists : List (List α)) (a : α) :
    (pushBackLast lists a).dropLast = lists.dropLast := by
  induction lists with
  | nil => rfl
  | cons l ls ih =>
    cases ls with
    | nil => rfl
    | cons l' ls' =>
      cases ls' with
      | nil => simp [pushBackLast]
      | cons l'' ls'' =>
        simp only [pushBackLast, List.dropLast_cons₂] at ih ⊢
        rw [ih]

/-! ## Mode and style registries -/

/-- C1: after a `SetMode3DCairo(c, m)` token is self-drawn into a scene, `getMode(c)`
returns `m` and `getMode` of every other name returns what it returned before; the same
holds for a `SetMode3D(c, m)` token self-drawn into a `Display3D`. -/
theorem C1_setMode_observed_by_getMode (viewer : DGtalCairo) (display : Display3D)
    (c m : String) :
    ((SetMode3DCairo.mk c m).selfDrawCairo viewer).raised = none ∧
    ((SetMode3DCairo.mk c m).selfDrawCairo viewer).scene.getMode c = m ∧
    (∀ c' : String, c' ≠ c →
      ((SetMode3DCairo.mk c m).selfDrawCairo viewer).scene.getMode c' = viewer.getMode c') ∧
    ((SetMode3D.mk c m).selfDrawDisplay3D display).raised = none ∧
    ((SetMode3D.mk c m).selfDrawDisplay3D display).scene.getMode c = m ∧
    (∀ c' : String, c' ≠ c →
      ((SetMode3D.mk c m).selfDrawDisplay3D display).scene.getMode c'
        = display.getMode c') := by
  refine ⟨rfl, ?_, ?_, rfl, ?_, ?_⟩
  · simp [SetMode3DCairo.selfDrawCairo, DGtalCairo.getMode, stdMapFind_assign_same]
  · intro c' hne
    simp [SetMode3DCairo.selfDrawCairo, DGtalCairo.getMode,
      stdMapFind_assign_other _ _ _ _ hne]
  · simp [SetMode3D.selfDrawDisplay3D, Display3D.getMode, stdMapFind_assign_same]
  · intro c' hne
    simp [SetMode3D.selfDrawDisplay3D, Display3D.getMode,
      stdMapFind_assign_other _ _ _ _ hne]

/-- C1, instance: with the mode "Paving" registered for "Voxel" in a scene that already
holds the mode "Grid" for "Ball", "Voxel" reads "Paving" and "Ball" is not affected, in a
Cairo scene and in a `Display3D`. -/
theorem C1_setMode_observed_by_getMode_witness :
    ((SetMode3DCairo.mk "Voxel" "Paving").selfDrawCairo
        ((SetMode3DCairo.mk "Ball" "Grid").selfDrawCairo DGtalCairo.empty).scene).scene.getMode
        "Voxel" = "Paving" ∧
    ((SetMode3DCairo.mk "Voxel" "Paving").selfDrawCairo
        ((SetMode3DCairo.mk "Ball" "Grid").selfDrawCairo DGtalCairo.empty).scene).scene.getMode
        "Ball"
      = ((SetMode3DCairo.mk "Ball" "Grid").selfDrawCairo DGtalCairo.empty).scene.getMode
        "Ball" ∧
    ((SetMode3D.mk "Voxel" "Paving").selfDrawDisplay3D Display3D.empty).scene.getMode "Ball"
      = Display3D.empty.getMode "Ball" :=
  ⟨(C1_setMode_observed_by_getMode
      ((SetMode3DCairo.mk "Ball" "Grid").selfDrawCairo DGtalCairo.empty).scene
      Display3D.empty "Voxel" "Paving").2.1,
   (C1_setMode_observed_by_getMode
      ((SetMode3DCairo.mk "Ball" "Grid").selfDrawCairo DGtalCairo.empty).scene
      Display3D.empty "Voxel" "Paving").2.2.1 "Ball" (by decide),
   (C1_setMode_observed_by_getMode
      ((SetMode3DCairo.mk "Ball" "Grid").selfDrawCairo DGtalCairo.empty).scene
      Display3D.empty "Voxel" "Paving").2.2.2.2.2 "Ball" (by decide)⟩

/-- C7: setting a mode or a style overwrites. Streaming `SetMode3DCairo(c, m1)` then
`SetMode3DCairo(c, m2)` leaves the same mode registry, and the same scene, as streaming
only `SetMode3DCairo(c, m2)`; streaming the same token twice gives what streaming it once
gives; likewise for `CustomStyle3DCairo` and the style registry. -/
theorem C7_set_mode_style_overwrites (viewer : DGtalCairo) (c m1 m2 : String)
    (s1 s2 : StylePtr) :
    ((SetMode3DCairo.mk c m2).selfDrawCairo
        ((SetMode3DCairo.mk c m1).selfDrawCairo viewer).scene).scene.myModes
      = ((SetMode3DCairo.mk c m2).selfDrawCairo viewer).scene.myModes ∧
    (SetMode3DCairo.mk c m2).selfDrawCairo ((SetMode3DCairo.mk c m1).selfDrawCairo viewer).scene
      = (SetMode3DCairo.mk c m2).selfDrawCairo viewer ∧
    (SetMode3DCairo.mk c m1).selfDrawCairo ((SetMode3DCairo.mk c m1).selfDrawCairo viewer).scene
      = (SetMode3DCairo.mk c m1).selfDrawCairo viewer ∧
    ((CustomStyle3DCairo.mk c s2).selfDrawCairo
        ((CustomStyle3DCairo.mk c s1).selfDrawCairo viewer).scene).scene.myStyles
      = ((CustomStyle3DCairo.mk c s2).selfDrawCairo viewer).scene.myStyles ∧
    (CustomStyle3DCairo.mk c s2).selfDrawCairo
        ((CustomStyle3DCairo.mk c s1).selfDrawCairo viewer).scene
      = (CustomStyle3DCairo.mk c s2).selfDrawCairo viewer ∧
    (CustomStyle3DCairo.mk c s1).selfDrawCairo
        ((CustomStyle3DCairo.mk c s1).selfDrawCairo viewer).scene
      = (CustomStyle3DCairo.mk c s1).selfDrawCairo viewer := by
  refine ⟨?_, ?_, ?_, ?_, ?_, ?_⟩ <;>
    simp [SetMode3DCairo.selfDrawCairo, CustomStyle3DCairo.selfDrawCairo,
      stdMapAssign_assign]

/-- C8: style lookup is by exact match, with no fallback between composite and base keys.
After `CustomStyle3DCairo(c, s)` is self-drawn the style registry maps `c` to `s`, every
key different from `c` keeps its previous style or absence, and the mode registry is
unchanged; the same holds for `CustomStyle3D(c, s)` self-drawn into a `Display3D`. -/
theorem C8_style_lookup_exact_match (viewer : DGtalCairo) (display : Display3D)
    (c : String) (s : StylePtr) :
    stdMapFind ((CustomStyle3DCairo.mk c s).selfDrawCairo viewer).scene.myStyles c = some s ∧
    (∀ c' : String, c' ≠ c →
      stdMapFind ((CustomStyle3DCairo.mk c s).selfDrawCairo viewer).scene.myStyles c'
        = stdMapFind viewer.myStyles c') ∧
    ((CustomStyle3DCairo.mk c s).selfDrawCairo viewer).scene.myModes = viewer.myModes ∧
    stdMapFind ((CustomStyle3D.mk c s).selfDrawDisplay3D display).scene.myStyles c = some s ∧
    (∀ c' : String, c' ≠ c →
      stdMapFind ((CustomStyle3D.mk c s).selfDrawDisplay3D display).scene.myStyles c'
        = stdMapFind display.myStyles c') ∧
    ((CustomStyle3D.mk c s).selfDrawDisplay3D display).scene.myModes = display.myModes := by
  refine ⟨?_, ?_, rfl, ?_, ?_, rfl⟩
  · simp [CustomStyle3DCairo.selfDrawCairo, stdMapFind_assign_same]
  · intro c' hne
    simp [CustomStyle3DCairo.selfDrawCairo,
      stdMapFind_assign_other _ _ _ _ hne]
  · simp [CustomStyle3D.selfDrawDisplay3D, stdMapFind_assign_same]
  · intro c' hne
    simp [CustomStyle3D.selfDrawDisplay3D,
      stdMapFind_assign_other _ _ _ _ hne]

/-- C8, instance: a style registered under the composite key "T/M" is not returned for the
base key "T", and a style registered under "T" does not change what "T/M" returns. -/
theorem C8_style_lookup_exact_match_witness :
    stdMapFind ((CustomStyle3DCairo.mk "T/M" 7).selfDrawCairo DGtalCairo.empty).scene.myStyles
        "T"
      = stdMapFind DGtalCairo.empty.myStyles "T" ∧
    stdMapFind ((CustomStyle3DCairo.mk "T" 9).selfDrawCairo
        ((CustomStyle3DCairo.mk "T/M" 7).selfDrawCairo DGtalCairo.empty).scene).scene.myStyles
        "T/M"
      = stdMapFind ((CustomStyle3DCairo.mk "T/M" 7).selfDrawCairo
          DGtalCairo.empty).scene.myStyles "T/M" ∧
    stdMapFind ((CustomStyle3D.mk "T/M" 7).selfDrawDisplay3D Display3D.empty).scene.myStyles
        "T"
      = stdMapFind Display3D.empty.myStyles "T" :=
  ⟨(C8_style_lookup_exact_match DGtalCairo.empty Display3D.empty "T/M" 7).2.1 "T"
      (by decide),
   (C8_style_lookup_exact_match
      ((CustomStyle3DCairo.mk "T/M" 7).selfDrawCairo DGtalCairo.empty).scene
      Display3D.empty "T" 9).2.1 "T/M" (by decide),
   (C8_style_lookup_exact_match DGtalCairo.empty Display3D.empty "T/M" 7).2.2.2.2.1 "T"
      (by decide)⟩

/-! ## Clipping planes -/

theorem addClippingPlane_length_le (viewer : DGtalCairo) (a b c d : Rat) (drawPlane : Bool)
    (h : viewer.myClippingPlaneList.length ≤ 5) :
    (viewer.addClippingPlane a b c d drawPlane).scene.myClippingPlaneList.length ≤ 5 := by
  unfold DGtalCairo.addClippingPlane
  split
  · simp only [List.length_append, List.length_cons, List.length_nil]
    omega
  · exact h

theorem perform_clippingPlanes_le (viewer : DGtalCairo) (op : SceneOp)
    (h : viewer.myClippingPlaneList.length ≤ 5) :
    (viewer.perform op).scene.myClippingPlaneList.length ≤ 5 := by
  cases op with
  | addClippingPlane a b c d drawPlane => exact addClippingPlane_length_le viewer a b c d _ h
  | streamClippingPlaneCairo object =>
    exact addClippingPlane_length_le viewer _ _ _ _ _ h
  | addVoxel x y z color width =>
    simp only [DGtalCairo.perform, DGtalCairo.addVoxel]
    split <;> exact h
  | addPoint x y z color size =>
    simp only [DGtalCairo.perform, DGtalCairo.addPoint]
    split <;> exact h
  | addLine x1 y1 z1 x2 y2 z2 color width =>
    simp only [DGtalCairo.perform, DGtalCairo.addLine]
    split <;> exact h
  | addKSVoxel x y z aColor =>
    simp only [DGtalCairo.perform, DGtalCairo.addKSVoxel]
    split <;> exact h
  | streamKey key kind =>
    cases key <;> cases kind <;> exact h
  | _ => exact h

theorem run_clippingPlanes_le (ops : List SceneOp) (viewer : DGtalCairo)
    (h : viewer.myClippingPlaneList.length ≤ 5) :
    (viewer.run ops).myClippingPlaneList.length ≤ 5 := by
  induction ops generalizing viewer with
  | nil => exact h
  | cons op ops ih => exact ih _ (perform_clippingPlanes_le viewer op h)

/-- C2: adding a clipping plane to a scene that already holds 5 clipping planes, by
`addClippingPlane` or by streaming a `ClippingPlaneCairo`, fails with
`ClippingPlaneCapacityError`; afterwards the collection still has length 5 and holds the
same 5 planes, and the scene as a whole is unchanged. -/
theorem C2_sixth_clipping_plane_fails (viewer : DGtalCairo) (a b c d : Rat)
    (drawPlane : Bool) (flag : Option Bool) (h : viewer.myClippingPlaneList.length = 5) :
    (viewer.addClippingPlane a b c d drawPlane).raised
      = some SceneError.ClippingPlaneCapacityError ∧
    (viewer.addClippingPlane a b c d drawPlane).scene.myClippingPlaneList
      = viewer.myClippingPlaneList ∧
    (viewer.addClippingPlane a b c d drawPlane).scene.myClippingPlaneList.length = 5 ∧
    (viewer.addClippingPlane a b c d drawPlane).scene = viewer ∧
    ((ClippingPlaneCairo.new a b c d flag).selfDrawCairo viewer).raised
      = some SceneError.ClippingPlaneCapacityError ∧
    ((ClippingPlaneCairo.new a b c d flag).selfDrawCairo viewer).scene.myClippingPlaneList
      = viewer.myClippingPlaneList ∧
    ((ClippingPlaneCairo.new a b c d flag).selfDrawCairo viewer).scene.myClippingPlaneList.length
      = 5 ∧
    (viewer.perform (.streamClippingPlaneCairo (ClippingPlaneCairo.new a b c d flag)))
      = ⟨some SceneError.ClippingPlaneCapacityError, viewer⟩ := by
  have hlt : ¬ viewer.myClippingPlaneList.length < 5 := by omega
  simp [DGtalCairo.addClippingPlane, ClippingPlaneCairo.selfDrawCairo, DGtalCairo.perform,
    hlt, h]

/-- C2, instance: the scene built by five accepted additions holds 5 planes, and a sixth
addition, streamed as a `ClippingPlaneCairo(1, 2, 3, 4)`, is refused and leaves the
collection as it was. -/
theorem C2_sixth_clipping_plane_fails_witness :
    sceneWithFivePlanes.myClippingPlaneList.length = 5 ∧
    ((ClippingPlaneCairo.new 1 2 3 4 none).selfDrawCairo sceneWithFivePlanes).raised
      = some SceneError.ClippingPlaneCapacityError ∧
    ((ClippingPlaneCairo.new 1 2 3 4 none).selfDrawCairo
        sceneWithFivePlanes).scene.myClippingPlaneList
      = sceneWithFivePlanes.myClippingPlaneList :=
  ⟨rfl,
   (C2_sixth_clipping_plane_fails sceneWithFivePlanes 1 2 3 4 true none rfl).2.2.2.2.1,
   (C2_sixth_clipping_plane_fails sceneWithFivePlanes 1 2 3 4 true none rfl).2.2.2.2.2.1⟩

/-- C3: in every scene reached from the empty scene by a sequence of calls and streamed
tokens, the clipping-plane collection holds at most 5 planes. -/
theorem C3_at_most_five_clipping_planes (ops : List SceneOp) :
    (DGtalCairo.empty.run ops).myClippingPlaneList.length ≤ 5 :=
  run_clippingPlanes_le ops DGtalCairo.empty (by decide)

/-- C9: evaluation of the code at the input `ClippingPlane(1, 0, 0, 0)` on an empty
display. `selfDrawDisplay3D` runs the empty member inherited from the base class and
leaves the display without clipping plane, whereas `addClippingPlane(1, 0, 0, 0, true)`,
reached only through `selfDrawViewer3D`, stores the plane. The same holds for every
plane on every display: `selfDrawDisplay3D` returns the display as it is. -/
theorem C9_clippingPlane_selfDrawDisplay3D_adds_nothing :
    (ClippingPlane.new 1 0 0 0 none).selfDrawDisplay3D Display3D.empty
      = ⟨none, Display3D.empty⟩ ∧
    ((ClippingPlane.new 1 0 0 0 none).selfDrawDisplay3D
      Display3D.empty).scene.myClippingPlaneList = [] ∧
    (Display3D.empty.addClippingPlane 1 0 0 0 true).scene.myClippingPlaneList
      = [⟨⟨1, 0, 0, 0⟩, true⟩] ∧
    (ClippingPlane.new 1 0 0 0 none).selfDrawViewer3D Display3D.empty
      = Display3D.empty.addClippingPlane 1 0 0 0 true ∧
    (ClippingPlane.new 1 0 0 0 none).selfDrawDisplay3D Display3D.empty
      ≠ Display3D.empty.addClippingPlane 1 0 0 0 true ∧
    (∀ (plane : ClippingPlane) (display : Display3D),
      plane.selfDrawDisplay3D display = ⟨none, display⟩) := by
  refine ⟨rfl, rfl, rfl, rfl, ?_, fun _ _ => rfl⟩
  intro h
  have h' := congrArg (fun o => o.scene.myClippingPlaneList.length) h
  simp [ClippingPlane.selfDrawDisplay3D, DrawWithDisplay3DModifier.selfDrawDisplay3D,
    Display3D.addClippingPlane, Display3D.empty] at h'

/-- C10: self-drawing `ClippingPlaneCairo(a, b, c, d, f)` into a scene has exactly the
effect of `addClippingPlane(a, b, c, d, f)` on that scene, with `f = true` when the flag is
omitted at construction, and `getEquation()` returns the four coefficients in the order
`a, b, c, d`. -/
theorem C10_clippingPlaneCairo_selfDraw_is_addClippingPlane (viewer : DGtalCairo)
    (a b c d : Rat) (f : Bool) (flag : Option Bool) :
    (ClippingPlaneCairo.new a b c d (some f)).selfDrawCairo viewer
      = viewer.addClippingPlane a b c d f ∧
    (ClippingPlaneCairo.new a b c d none).selfDrawCairo viewer
      = viewer.addClippingPlane a b c d true ∧
    viewer.perform (.streamClippingPlaneCairo (ClippingPlaneCairo.new a b c d (some f)))
      = viewer.perform (.addClippingPlane a b c d f) ∧
    (ClippingPlaneCairo.new a b c d flag).getEquation = [a, b, c, d] :=
  ⟨rfl, rfl, rfl, rfl⟩

/-! ## Voxel lists -/

theorem addVoxel_lists (viewer : DGtalCairo) (x y z : Int) (color : Option QColor)
    (width : Option Rat) :
    (viewer.addVoxel x y z color width).scene.myVoxelSetList
      = extendCurrent viewer.myVoxelSetList [voxelOf x y z color width] := by
  unfold DGtalCairo.addVoxel
  split
  · next h => simp [h, extendCurrent]
  · exact pushBackLast_eq_extendCurrent _ _

theorem addVoxel_flags (viewer : DGtalCairo) (x y z : Int) (color : Option QColor)
    (width : Option Rat) :
    (viewer.addVoxel x y z color width).scene.myListVoxelDepthTest
      = viewer.myListVoxelDepthTest := by
  unfold DGtalCairo.addVoxel
  split <;> rfl

theorem run_voxelCalls_lists (calls : List VoxelCall) (viewer : DGtalCairo) :
    (viewer.run (calls.map VoxelCall.toOp)).myVoxelSetList
      = extendCurrent viewer.myVoxelSetList (addsBeforeFirstOpen calls)
          ++ listsOpened calls := by
  induction calls generalizing viewer with
  | nil => simp [DGtalCairo.run, addsBeforeFirstOpen, listsOpened, extendCurrent_nil]
  | cons call rest ih =>
    cases call with
    | createNewVoxelList depthTest =>
      simp only [List.map_cons, VoxelCall.toOp, DGtalCairo.run, DGtalCairo.perform,
        addsBeforeFirstOpen, listsOpened]
      rw [ih]
      simp [DGtalCairo.createNewVoxelList, extendCurrent_opened, extendCurrent_nil]
    | addVoxel x y z color width =>
      simp only [List.map_cons, VoxelCall.toOp, DGtalCairo.run, DGtalCairo.perform,
        addsBeforeFirstOpen, listsOpened]
      rw [ih, addVoxel_lists, extendCurrent_extendCurrent]
      rfl

theorem run_voxelCalls_flags (calls : List VoxelCall) (viewer : DGtalCairo) :
    (viewer.run (calls.map VoxelCall.toOp)).myListVoxelDepthTest
      = viewer.myListVoxelDepthTest ++ flagsOpened calls := by
  induction calls generalizing viewer with
  | nil => simp [DGtalCairo.run, flagsOpened]
  | cons call rest ih =>
    cases call with
    | createNewVoxelList depthTest =>
      simp only [List.map_cons, VoxelCall.toOp, DGtalCairo.run, DGtalCairo.perform,
        flagsOpened]
      rw [ih]
      simp [DGtalCairo.createNewVoxelList]
    | addVoxel x y z color width =>
      simp only [List.map_cons, VoxelCall.toOp, DGtalCairo.run, DGtalCairo.perform,
        flagsOpened]
      rw [ih, addVoxel_flags]

theorem run_voxelCalls_count (calls : List VoxelCall) (viewer : DGtalCairo) :
    voxelCount (viewer.run (calls.map VoxelCall.toOp)).myVoxelSetList
      = voxelCount viewer.myVoxelSetList + viewer.successfulAdds calls := by
  induction calls generalizing viewer with
  | nil => simp [DGtalCairo.run, DGtalCairo.successfulAdds]
  | cons call rest ih =>
    cases call with
    | createNewVoxelList depthTest =>
      simp only [List.map_cons, VoxelCall.toOp, DGtalCairo.run, DGtalCairo.perform,
        DGtalCairo.successfulAdds]
      rw [ih]
      simp [DGtalCairo.createNewVoxelList, voxelCount]
    | addVoxel x y z color width =>
      simp only [List.map_cons, VoxelCall.toOp, DGtalCairo.run, DGtalCairo.perform,
        DGtalCairo.successfulAdds]
      rw [ih]
      by_cases hnil : viewer.myVoxelSetList = []
      · simp [DGtalCairo.addVoxel, hnil]
      · simp [DGtalCairo.addVoxel, hnil, voxelCount_pushBackLast _ _ hnil]
        omega

theorem addsBeforeFirstOpen_addVoxelCalls
    (args : List (Int × Int × Int × Option QColor × Option Rat)) :
    addsBeforeFirstOpen (addVoxelCalls args) = voxelsOf args := by
  induction args with
  | nil => rfl
  | cons t rest ih =>
    simp only [addVoxelCalls, voxelsOf, List.map_cons, addsBeforeFirstOpen] at ih ⊢
    rw [ih]

theorem listsOpened_addVoxelCalls
    (args : List (Int × Int × Int × Option QColor × Option Rat)) :
    listsOpened (addVoxelCalls args) = [] := by
  induction args with
  | nil => rfl
  | cons t rest ih =>
    simp only [addVoxelCalls, List.map_cons, listsOpened] at ih ⊢
    exact ih

theorem flagsOpened_addVoxelCalls
    (args : List (Int × Int × Int × Option QColor × Option Rat)) :
    flagsOpened (addVoxelCalls args) = [] := by
  induction args with
  | nil => rfl
  | cons t rest ih =>
    simp only [addVoxelCalls, List.map_cons, flagsOpened] at ih ⊢
    exact ih

theorem perform_lists_flags_length (viewer : DGtalCairo) (op : SceneOp)
    (h : viewer.myVoxelSetList.length = viewer.myListVoxelDepthTest.length) :
    (viewer.perform op).scene.myVoxelSetList.length
      = (viewer.perform op).scene.myListVoxelDepthTest.length := by
  cases op with
  | createNewVoxelList depthTest =>
    simp [DGtalCairo.perform, DGtalCairo.createNewVoxelList, h]
  | addVoxel x y z color width =>
    simp only [DGtalCairo.perform, DGtalCairo.addVoxel]
    split
    · exact h
    · simpa [pushBackLast_length] using h
  | addKSVoxel x y z aColor =>
    simp only [DGtalCairo.perform, DGtalCairo.addKSVoxel]
    split
    · exact h
    · cases hl : viewer.myVoxelSetList with
      | nil => simpa [hl, pushBackFirst] using h
      | cons l ls => simpa [hl, pushBackFirst] using h
  | addPoint x y z color size =>
    simp only [DGtalCairo.perform, DGtalCairo.addPoint]
    split <;> exact h
  | addLine x1 y1 z1 x2 y2 z2 color width =>
    simp only [DGtalCairo.perform, DGtalCairo.addLine]
    split <;> exact h
  | addClippingPlane a b c d drawPlane =>
    simp only [DGtalCairo.perform, DGtalCairo.addClippingPlane]
    split <;> exact h
  | streamClippingPlaneCairo object =>
    simp only [DGtalCairo.perform, ClippingPlaneCairo.selfDrawCairo,
      DGtalCairo.addClippingPlane]
    split <;> exact h
  | streamKey key kind =>
    cases key <;> cases kind <;>
      simp [DGtalCairo.perform, DGtalCairo.streamKey, DGtalCairo.createNewVoxelList,
        DGtalCairo.createNewLineList, DGtalCairo.createNewPointList, h]
  | _ => exact h

theorem run_lists_flags_length (ops : List SceneOp) (viewer : DGtalCairo)
    (h : viewer.myVoxelSetList.length = viewer.myListVoxelDepthTest.length) :
    (viewer.run ops).myVoxelSetList.length = (viewer.run ops).myListVoxelDepthTest.length := by
  induction ops generalizing viewer with
  | nil => exact h
  | cons op ops ih => exact ih _ (perform_lists_flags_length viewer op h)

/-- C4: for every sequence of `createNewVoxelList` / `addVoxel` calls on a scene, the voxel
lists afterwards are the lists that existed before, the current one extended by the voxels
added before the first `createNewVoxelList`, followed by one list per `createNewVoxelList`
call holding the voxels added while it was the current list, in the order of the calls;
the number of voxels gained equals the number of successful `addVoxel` calls; and a single
`addVoxel` changes no list other than the current one. -/
theorem C4_voxel_lists_hold_adds_in_order (viewer : DGtalCairo) (calls : List VoxelCall) :
    (viewer.run (calls.map VoxelCall.toOp)).myVoxelSetList
      = extendCurrent viewer.myVoxelSetList (addsBeforeFirstOpen calls)
          ++ listsOpened calls ∧
    voxelCount (viewer.run (calls.map VoxelCall.toOp)).myVoxelSetList
      = voxelCount viewer.myVoxelSetList + viewer.successfulAdds calls ∧
    (∀ (x y z : Int) (color : Option QColor) (width : Option Rat),
      (viewer.addVoxel x y z color width).scene.myVoxelSetList.length
        = viewer.myVoxelSetList.length ∧
      (viewer.addVoxel x y z color width).scene.myVoxelSetList.dropLast
        = viewer.myVoxelSetList.dropLast) := by
  refine ⟨run_voxelCalls_lists calls viewer, run_voxelCalls_count calls viewer, ?_⟩
  intro x y z color width
  unfold DGtalCairo.addVoxel
  split
  · exact ⟨rfl, rfl⟩
  · exact ⟨pushBackLast_length _ _, pushBackLast_dropLast _ _⟩

/-- C6: `createNewVoxelList(depthTest)` always succeeds; it adds exactly one new empty
voxel list after the existing ones and records `depthTest`, `true` when omitted, as the
flag of that list, leaving the earlier lists and flags unchanged; the `addVoxel` calls that
follow all succeed and fill the new list in call order; and in every scene reached from
the empty scene the number of voxel lists equals the number of depth-test flags. -/
theorem C6_createNewVoxelList_opens_current_list (viewer : DGtalCairo)
    (depthTest : Option Bool) (flag : Bool)
    (args : List (Int × Int × Int × Option QColor × Option Rat)) (ops : List SceneOp) :
    viewer.perform (.createNewVoxelList depthTest)
      = ⟨none, viewer.createNewVoxelList depthTest⟩ ∧
    (viewer.createNewVoxelList depthTest).myVoxelSetList = viewer.myVoxelSetList ++ [[]] ∧
    (viewer.createNewVoxelList (some flag)).myListVoxelDepthTest
      = viewer.myListVoxelDepthTest ++ [flag] ∧
    (viewer.createNewVoxelList none).myListVoxelDepthTest
      = viewer.myListVoxelDepthTest ++ [true] ∧
    ((viewer.createNewVoxelList depthTest).run
        ((addVoxelCalls args).map VoxelCall.toOp)).myVoxelSetList
      = viewer.myVoxelSetList ++ [voxelsOf args] ∧
    (viewer.createNewVoxelList depthTest).successfulAdds (addVoxelCalls args)
      = args.length ∧
    ((viewer.createNewVoxelList depthTest).run
        ((addVoxelCalls args).map VoxelCall.toOp)).myListVoxelDepthTest
      = viewer.myListVoxelDepthTest ++ [depthTest.getD true] ∧
    (DGtalCairo.empty.run ops).myVoxelSetList.length
      = (DGtalCairo.empty.run ops).myListVoxelDepthTest.length := by
  have hlists : ((viewer.createNewVoxelList depthTest).run
        ((addVoxelCalls args).map VoxelCall.toOp)).myVoxelSetList
      = viewer.myVoxelSetList ++ [voxelsOf args] := by
    rw [run_voxelCalls_lists, addsBeforeFirstOpen_addVoxelCalls, listsOpened_addVoxelCalls]
    simp [DGtalCairo.createNewVoxelList, extendCurrent_opened]
  have hflags : flagsOpened (addVoxelCalls args) = [] := flagsOpened_addVoxelCalls args
  refine ⟨rfl, rfl, rfl, rfl, hlists, ?_, ?_, run_lists_flags_length ops _ rfl⟩
  · have hcount := run_voxelCalls_count (addVoxelCalls args)
      (viewer.createNewVoxelList depthTest)
    rw [hlists] at hcount
    have hleft : voxelCount (viewer.myVoxelSetList ++ [voxelsOf args])
        = voxelCount viewer.myVoxelSetList + args.length := by
      simp [voxelCount, voxelsOf]
    have hright : voxelCount (viewer.createNewVoxelList depthTest).myVoxelSetList
        = voxelCount viewer.myVoxelSetList := by
      simp [voxelCount, DGtalCairo.createNewVoxelList]
    omega
  · rw [run_voxelCalls_flags, hflags]
    simp [DGtalCairo.createNewVoxelList]

/-! ## Camera -/

/-- C11: each camera setter changes only its own component. `setCameraPosition(x, y, z)`
sets the position and leaves direction, up vector, near and far unchanged; likewise
`setCameraDirection`, `setCameraUpVector` and `setNearFar(near, far)`, which sets
`ZNear = near` and `ZFar = far`; none of them changes the primitive lists, the clipping
planes, the mode and style registries or the cached matrix, and none reports an error. -/
theorem C11_camera_setters_change_own_component (viewer : DGtalCairo) (x y z near far : Rat) :
    ((viewer.setCameraPosition x y z).camera_position = (x, y, z) ∧
      (viewer.setCameraPosition x y z).camera_direction = viewer.camera_direction ∧
      (viewer.setCameraPosition x y z).camera_upVector = viewer.camera_upVector ∧
      (viewer.setCameraPosition x y z).ZNear = viewer.ZNear ∧
      (viewer.setCameraPosition x y z).ZFar = viewer.ZFar) ∧
    ((viewer.setCameraDirection x y z).camera_direction = (x, y, z) ∧
      (viewer.setCameraDirection x y z).camera_position = viewer.camera_position ∧
      (viewer.setCameraDirection x y z).camera_upVector = viewer.camera_upVector ∧
      (viewer.setCameraDirection x y z).ZNear = viewer.ZNear ∧
      (viewer.setCameraDirection x y z).ZFar = viewer.ZFar) ∧
    ((viewer.setCameraUpVector x y z).camera_upVector = (x, y, z) ∧
      (viewer.setCameraUpVector x y z).camera_position = viewer.camera_position ∧
      (viewer.setCameraUpVector x y z).camera_direction = viewer.camera_direction ∧
      (viewer.setCameraUpVector x y z).ZNear = viewer.ZNear ∧
      (viewer.setCameraUpVector x y z).ZFar = viewer.ZFar) ∧
    ((viewer.setNearFar near far).ZNear = near ∧
      (viewer.setNearFar near far).ZFar = far ∧
      (viewer.setNearFar near far).camera_position = viewer.camera_position ∧
      (viewer.setNearFar near far).camera_direction = viewer.camera_direction ∧
      (viewer.setNearFar near far).camera_upVector = viewer.camera_upVector) ∧
    (∀ v : DGtalCairo,
      v = viewer.setCameraPosition x y z ∨ v = viewer.setCameraDirection x y z ∨
        v = viewer.setCameraUpVector x y z ∨ v = viewer.setNearFar near far →
      v.myVoxelSetList = viewer.myVoxelSetList ∧
      v.myLineSetList = viewer.myLineSetList ∧
      v.myPointSetList = viewer.myPointSetList ∧
      v.myQuadList = viewer.myQuadList ∧
      v.myKSSurfelList = viewer.myKSSurfelList ∧
      v.myKSPointelList = viewer.myKSPointelList ∧
      v.myKSLinelList = viewer.myKSLinelList ∧
      v.myListVoxelDepthTest = viewer.myListVoxelDepthTest ∧
      v.myClippingPlaneList = viewer.myClippingPlaneList ∧
      v.myModes = viewer.myModes ∧
      v.myStyles = viewer.myStyles ∧
      v.matrix = viewer.matrix ∧
      v.Viewport = viewer.Viewport) ∧
    (viewer.perform (.setCameraPosition x y z)).raised = none ∧
    (viewer.perform (.setCameraDirection x y z)).raised = none ∧
    (viewer.perform (.setCameraUpVector x y z)).raised = none ∧
    (viewer.perform (.setNearFar near far)).raised = none := by
  refine ⟨⟨rfl, rfl, rfl, rfl, rfl⟩, ⟨rfl, rfl, rfl, rfl, rfl⟩, ⟨rfl, rfl, rfl, rfl, rfl⟩,
    ⟨rfl, rfl, rfl, rfl, rfl⟩, ?_, rfl, rfl, rfl, rfl⟩
  intro v hv
  rcases hv with rfl | rfl | rfl | rfl <;>
    exact ⟨rfl, rfl, rfl, rfl, rfl, rfl, rfl, rfl, rfl, rfl, rfl, rfl, rfl⟩

/-- C11, instance: on the scene holding five clipping planes, `setNearFar(2, 7)` sets the
two distances and leaves the five planes in place. -/
theorem C11_camera_setters_change_own_component_witness :
    (sceneWithFivePlanes.setNearFar 2 7).ZNear = 2 ∧
    (sceneWithFivePlanes.setNearFar 2 7).ZFar = 7 ∧
    (sceneWithFivePlanes.setNearFar 2 7).myClippingPlaneList
      = sceneWithFivePlanes.myClippingPlaneList :=
  ⟨(C11_camera_setters_change_own_component sceneWithFivePlanes 0 0 0 2 7).2.2.2.1.1,
   (C11_camera_setters_change_own_component sceneWithFivePlanes 0 0 0 2 7).2.2.2.1.2.1,
   ((C11_camera_setters_change_own_component sceneWithFivePlanes 0 0 0 2 7).2.2.2.2.1
      (sceneWithFivePlanes.setNearFar 2 7) (Or.inr (Or.inr (Or.inr rfl)))).2.2.2.2.2.2.2.2.1⟩

/-- C12, as stated, fails: `setCameraDirection(0, 0, 0)` on the empty scene reports no
error and stores the zero direction; and with the direction `(1, 0, 0)` set,
`setCameraUpVector(2, 0, 0)`, parallel to it, reports no error and is stored beside it. -/
theorem C12_degenerate_camera_is_accepted :
    (DGtalCairo.empty.perform (.setCameraDirection 0 0 0)).raised = none ∧
    (DGtalCairo.empty.perform (.setCameraDirection 0 0 0)).scene.camera_direction
      = (0, 0, 0) ∧
    ((DGtalCairo.empty.setCameraDirection 1 0 0).perform
      (.setCameraUpVector 2 0 0)).raised = none ∧
    ((DGtalCairo.empty.setCameraDirection 1 0 0).perform
      (.setCameraUpVector 2 0 0)).scene.camera_direction = (1, 0, 0) ∧
    ((DGtalCairo.empty.setCameraDirection 1 0 0).perform
      (.setCameraUpVector 2 0 0)).scene.camera_upVector = (2, 0, 0) ∧
    (DGtalCairo.empty.perform (.setCameraDirection 0 0 0)).raised
      ≠ some SceneError.DegenerateCameraError :=
  ⟨rfl, rfl, rfl, rfl, rfl, by decide⟩

/-- C12, amended: the camera setters validate nothing. `setCameraDirection` and
`setCameraUpVector` store whatever vector they are given, the zero vector and a vector
parallel to the other one included, and report no error; the other camera components are
kept as they are. -/
theorem C12_camera_setters_accept_every_vector (viewer : DGtalCairo) (x y z : Rat) :
    viewer.perform (.setCameraDirection x y z)
      = ⟨none, { viewer with camera_direction := (x, y, z) }⟩ ∧
    viewer.perform (.setCameraUpVector x y z)
      = ⟨none, { viewer with camera_upVector := (x, y, z) }⟩ ∧
    (viewer.perform (.setCameraDirection x y z)).raised
      ≠ some SceneError.DegenerateCameraError ∧
    (viewer.perform (.setCameraUpVector x y z)).raised
      ≠ some SceneError.DegenerateCameraError := by
  refine ⟨rfl, rfl, ?_, ?_⟩ <;> simp [DGtalCairo.perform]

/-! ## Functors of `Modifier.h` -/

/-- C14: for every 3D point `p = (p0, p1, p2)`, `Point3dTo2dXY::get(p) = (p0, p1)`,
`Point3dTo2dXZ::get(p) = (p0, p2)` and `Point3dTo2dYZ::get(p) = (p1, p2)`: each functor
drops the coordinate orthogonal to its plane and keeps the two others in their order. -/
theorem C14_point3dTo2d_projections {Coordinate : Type} (p0 p1 p2 : Coordinate)
    (p : PointVector 3 Coordinate) :
    Point3dTo2dXY.get ![p0, p1, p2] = ![p0, p1] ∧
    Point3dTo2dXZ.get ![p0, p1, p2] = ![p0, p2] ∧
    Point3dTo2dYZ.get ![p0, p1, p2] = ![p1, p2] ∧
    (Point3dTo2dXY.get p 0 = p 0 ∧ Point3dTo2dXY.get p 1 = p 1) ∧
    (Point3dTo2dXZ.get p 0 = p 0 ∧ Point3dTo2dXZ.get p 1 = p 2) ∧
    (Point3dTo2dYZ.get p 0 = p 1 ∧ Point3dTo2dYZ.get p 1 = p 2) := by
  refine ⟨?_, ?_, ?_, ⟨rfl, rfl⟩, ⟨rfl, rfl⟩, ⟨rfl, rfl⟩⟩ <;>
    simp [Point3dTo2dXY.get, Point3dTo2dXZ.get, Point3dTo2dYZ.get]

theorem doubleShift_of_lt (fuel a : Nat) (h : a < 2 ^ 53) : doubleShift fuel a = 0 := by
  cases fuel with
  | zero => rfl
  | succ f =>
    unfold doubleShift
    rw [if_pos h]

theorem roundToDouble_of_lt (n : Int) (h : n.natAbs < 2 ^ 53) : roundToDouble n = n := by
  unfold roundToDouble
  simp only [doubleShift_of_lt _ _ h, pow_zero, Nat.div_one, Nat.mod_one, mul_zero, mul_one]
  have habs := Int.natAbs_eq n
  have hfalse : ¬ (1 < 0 ∨ 0 = 1 ∧ n.natAbs % 2 = 1) := by omega
  rw [if_neg hfalse]
  by_cases hn : n < 0
  · rw [if_pos hn]
    omega
  · rw [if_neg hn]
    omega

theorem roundToDouble_of_eq (n : Int) (h : n.natAbs = 2 ^ 53) : roundToDouble n = n := by
  have hshift : doubleShift n.natAbs n.natAbs = 1 := by
    rw [h]
    have hsucc : (2 ^ 53 : Nat) = (2 ^ 53 - 1) + 1 := by norm_num
    rw [hsucc]
    unfold doubleShift
    norm_num [doubleShift_of_lt]
  unfold roundToDouble
  simp only [hshift]
  rw [h]
  have habs := Int.natAbs_eq n
  norm_num
  by_cases hn : n < 0
  · rw [if_pos hn]
    omega
  · rw [if_neg hn]
    omega

theorem roundToDouble_of_le (n : Int) (h : n.natAbs ≤ 2 ^ 53) : roundToDouble n = n := by
  rcases Nat.lt_or_eq_of_le h with hlt | heq
  · exact roundToDouble_of_lt n hlt
  · exact roundToDouble_of_eq n heq

/-- C15, as stated, fails: for the signed cell whose first Khalimsky coordinate is the odd
number `2^53 + 1 = 9007199254740993 = 2 * 2^52 + 1`, the coordinate is rounded to the
`double` `2^53` before it is halved, so that `SCellToMidPoint::get` gives `2^52` and not
`2^52 + 1/2`, and twice the result is `2^53`, not the Khalimsky coordinate. -/
theorem C15_sCellToMidPoint_rounds_large_coordinates :
    khalimskyPlane.sKCoords ⟨9007199254740993, 0, true⟩ 0 = 2 * 4503599627370496 + 1 ∧
    SCellToMidPoint.get khalimskyPlane ⟨9007199254740993, 0, true⟩ 0 = 4503599627370496 ∧
    SCellToMidPoint.get khalimskyPlane ⟨9007199254740993, 0, true⟩ 0
      ≠ (4503599627370496 : Rat) + 1 / 2 ∧
    2 * SCellToMidPoint.get khalimskyPlane ⟨9007199254740993, 0, true⟩ 0
      = 9007199254740992 ∧
    2 * SCellToMidPoint.get khalimskyPlane ⟨9007199254740993, 0, true⟩ 0
      ≠ ((khalimskyPlane.sKCoords ⟨9007199254740993, 0, true⟩ 0 : Int) : Rat) := by
  have hround : roundToDouble 9007199254740993 = 9007199254740992 := by decide
  have hget : SCellToMidPoint.get khalimskyPlane ⟨9007199254740993, 0, true⟩ 0
      = 4503599627370496 := by
    show ((roundToDouble 9007199254740993 : Int) : Rat) / 2 = 4503599627370496
    rw [hround]
    norm_num
  have hcoord : khalimskyPlane.sKCoords ⟨9007199254740993, 0, true⟩ 0
      = 9007199254740993 := rfl
  refine ⟨by decide, hget, ?_, ?_, ?_⟩
  · rw [hget]
    norm_num
  · rw [hget]
    norm_num
  · rw [hget, hcoord]
    norm_num

/-- C15, amended: for every signed cell `s` of a Khalimsky space `k` and each coordinate
whose Khalimsky value is at most `2^53` in magnitude, hence exactly representable as a
`double`, the coordinate of `SCellToMidPoint::get(k, s)` is half of the Khalimsky
coordinate as a real number, so that twice the result is the Khalimsky coordinate; there
is no integer truncation: an odd coordinate `2n + 1` yields `n + 1/2`, which the integer
quotient `n` is not. For every coordinate, the result is half of the `double` the
Khalimsky coordinate converts to. -/
theorem C15_sCellToMidPoint_halves_exactly {dim : Nat} {SCell : Type} (k : KSpace dim SCell)
    (s : SCell) (i : Fin dim) :
    SCellToMidPoint.get k s i = ((roundToDouble (k.sKCoords s i) : Int) : Rat) / 2 ∧
    ((k.sKCoords s i).natAbs ≤ 2 ^ 53 →
      SCellToMidPoint.get k s i = (k.sKCoords s i : Rat) / 2 ∧
      2 * SCellToMidPoint.get k s i = (k.sKCoords s i : Rat) ∧
      (∀ n : Int, k.sKCoords s i = 2 * n + 1 →
        SCellToMidPoint.get k s i = (n : Rat) + 1 / 2 ∧
        SCellToMidPoint.get k s i ≠ ((k.sKCoords s i / 2 : Int) : Rat)) ∧
      (∀ n : Int, k.sKCoords s i = 2 * n → SCellToMidPoint.get k s i = (n : Rat))) := by
  have hdef : SCellToMidPoint.get k s i
      = ((roundToDouble (k.sKCoords s i) : Int) : Rat) / 2 := rfl
  refine ⟨hdef, ?_⟩
  intro hbound
  have hget : SCellToMidPoint.get k s i = (k.sKCoords s i : Rat) / 2 := by
    rw [hdef, roundToDouble_of_le _ hbound]
  refine ⟨hget, ?_, ?_, ?_⟩
  · rw [hget]
    ring
  · intro n hodd
    have hhalf : SCellToMidPoint.get k s i = (n : Rat) + 1 / 2 := by
      rw [hget, hodd]
      push_cast
      ring
    have hquot : (k.sKCoords s i / 2 : Int) = n := by
      rw [hodd]
      omega
    refine ⟨hhalf, ?_⟩
    rw [hhalf, hquot]
    norm_num
  · intro n heven
    rw [hget, heven]
    push_cast
    ring

/-- C15, instance: the cell of Khalimsky coordinates `(3, -4)` has the mid-point
`(3/2, -2)`: its first coordinate is `1 + 1/2`, not the integer quotient `1`, and its
second, even, coordinate is halved to `-2`. -/
theorem C15_sCellToMidPoint_halves_exactly_witness :
    SCellToMidPoint.get khalimskyPlane ⟨3, -4, true⟩ 0 = (1 : Rat) + 1 / 2 ∧
    2 * SCellToMidPoint.get khalimskyPlane ⟨3, -4, true⟩ 0 = 3 ∧
    SCellToMidPoint.get khalimskyPlane ⟨3, -4, true⟩ 1 = -2 := by
  have h0 := (C15_sCellToMidPoint_halves_exactly khalimskyPlane ⟨3, -4, true⟩ 0).2
    (by decide)
  have h1 := (C15_sCellToMidPoint_halves_exactly khalimskyPlane ⟨3, -4, true⟩ 1).2
    (by decide)
  refine ⟨by simpa using (h0.2.2.1 1 (by decide)).1, ?_, ?_⟩
  · have h := h0.2.1
    simpa [khalimskyPlane] using h
  · have h := h1.2.2.2 (-2) (by decide)
    simpa using h

/-- C16: evaluation of the code on signed cells of the 2D Khalimsky space. On the positive
pointel of Khalimsky coordinates `(0, 0)`, which has no open direction, `SCellToCode::get`
gives no code back; on the four kinds of linels it gives the codes '2', '0', '3' and '1'.
Whenever a code is given back it is one of '0', '1', '2', '3'. -/
theorem C16_sCellToCode_gives_no_code_for_a_pointel :
    SCellToCode.get khalimskyPlane ⟨0, 0, true⟩ = none ∧
    SCellToCode.get khalimskyPlane ⟨1, 0, true⟩ = some '2' ∧
    SCellToCode.get khalimskyPlane ⟨1, 0, false⟩ = some '0' ∧
    SCellToCode.get khalimskyPlane ⟨0, 1, true⟩ = some '3' ∧
    SCellToCode.get khalimskyPlane ⟨0, 1, false⟩ = some '1' ∧
    (∀ (SCell : Type) (k : KSpace 2 SCell) (s : SCell) (c : Char),
      SCellToCode.get k s = some c → c = '0' ∨ c = '1' ∨ c = '2' ∨ c = '3') := by
  refine ⟨by decide, by decide, by decide, by decide, by decide, ?_⟩
  intro SCell k s c h
  unfold SCellToCode.get at h
  split at h
  · exact absurd h (by simp)
  · simp only at h
    split_ifs at h <;> simp at h <;> subst h <;> simp

/-! ## Ranges with access from a point -/

theorem deref_add_eq_elements {Point α : Type} (r : SimpleRandomAccessRangeFromPoint Point)
    (buf : List α) (d : Int) (hvalid : r.ValidIn buf) (h0 : 0 ≤ d)
    (h1 : d < r.myEnd.pos - r.myBegin.pos) :
    (r.myBegin.add d).deref buf = (r.elements buf)[d.toNat]? := by
  obtain ⟨hb, _, _⟩ := hvalid
  have hpos : 0 ≤ r.myBegin.pos + d := by omega
  have hlt : d.toNat < (r.myEnd.pos - r.myBegin.pos).toNat := by omega
  have hsum : (r.myBegin.pos + d).toNat = r.myBegin.pos.toNat + d.toNat := by omega
  simp only [Iterator.deref, Iterator.add, SimpleRandomAccessRangeFromPoint.elements, hpos,
    if_true]
  rw [List.getElem?_take_of_lt hlt, List.getElem?_drop, hsum]

theorem deref_add_isSome {Point α : Type} (r : SimpleRandomAccessRangeFromPoint Point)
    (buf : List α) (d : Int) (hvalid : r.ValidIn buf) (h0 : 0 ≤ d)
    (h1 : d < r.myEnd.pos - r.myBegin.pos) :
    ((r.myBegin.add d).deref buf).isSome = true := by
  obtain ⟨hb, _, he⟩ := hvalid
  have hpos : 0 ≤ r.myBegin.pos + d := by omega
  have hlen : (r.myBegin.pos + d).toNat < buf.length := by omega
  simp only [Iterator.deref, Iterator.add, hpos, if_true]
  rw [List.getElem?_eq_getElem hlen]
  rfl

/-- C17: for a range built from the iterators `[itb, ite)` and a distance functor `dist`,
`begin()` is `itb`, `end()` is `ite`, and for every point `p`, whatever its distance, both
`begin(p)` and `outputIterator(p)` are the iterator at offset `dist(p)` from `itb`; when
the range lies within the sequence and `0 <= dist(p) < ite - itb` they lie inside
`[itb, ite)` and designate the element of index `dist(p)` of the range. -/
theorem C17_begin_at_point_designates_element {Point : Type} (itb ite : Iterator)
    (dist : Point → Int) (p : Point) :
    (SimpleRandomAccessRangeFromPoint.new itb ite dist).begin = itb ∧
    (SimpleRandomAccessRangeFromPoint.new itb ite dist).end_ = ite ∧
    (SimpleRandomAccessRangeFromPoint.new itb ite dist).outputIterator = itb ∧
    (SimpleRandomAccessRangeFromPoint.new itb ite dist).beginAt p = itb.add (dist p) ∧
    (SimpleRandomAccessRangeFromPoint.new itb ite dist).outputIteratorAt p
      = itb.add (dist p) ∧
    ((SimpleRandomAccessRangeFromPoint.new itb ite dist).beginAt p).pos
      = itb.pos + dist p ∧
    ((SimpleRandomAccessRangeFromPoint.new itb ite dist).outputIteratorAt p).pos
      = itb.pos + dist p ∧
    (∀ (α : Type) (buf : List α),
      (SimpleRandomAccessRangeFromPoint.new itb ite dist).ValidIn buf →
      0 ≤ dist p → dist p < ite.pos - itb.pos →
      (SimpleRandomAccessRangeFromPoint.new itb ite dist).Inside
        ((SimpleRandomAccessRangeFromPoint.new itb ite dist).beginAt p) ∧
      (SimpleRandomAccessRangeFromPoint.new itb ite dist).Inside
        ((SimpleRandomAccessRangeFromPoint.new itb ite dist).outputIteratorAt p) ∧
      ((SimpleRandomAccessRangeFromPoint.new itb ite dist).beginAt p).deref buf
        = ((SimpleRandomAccessRangeFromPoint.new itb ite dist).elements buf)[(dist p).toNat]? ∧
      ((SimpleRandomAccessRangeFromPoint.new itb ite dist).outputIteratorAt p).deref buf
        = ((SimpleRandomAccessRangeFromPoint.new itb ite dist).elements buf)[(dist p).toNat]? ∧
      (((SimpleRandomAccessRangeFromPoint.new itb ite dist).beginAt p).deref buf).isSome
        = true ∧
      (((SimpleRandomAccessRangeFromPoint.new itb ite dist).outputIteratorAt p).deref
        buf).isSome = true) := by
  refine ⟨rfl, rfl, rfl, rfl, rfl, rfl, rfl, ?_⟩
  intro α buf hvalid h0 h1
  have hinside : (SimpleRandomAccessRangeFromPoint.new itb ite dist).Inside
      ((SimpleRandomAccessRangeFromPoint.new itb ite dist).beginAt p) := by
    simp only [SimpleRandomAccessRangeFromPoint.Inside, SimpleRandomAccessRangeFromPoint.new,
      SimpleRandomAccessRangeFromPoint.beginAt, Iterator.add]
    omega
  exact ⟨hinside, hinside,
    deref_add_eq_elements _ buf (dist p) hvalid h0 h1,
    deref_add_eq_elements _ buf (dist p) hvalid h0 h1,
    deref_add_isSome _ buf (dist p) hvalid h0 h1,
    deref_add_isSome _ buf (dist p) hvalid h0 h1⟩

/-- C17, instance: in the range over `[10, 20, 30]`, `begin(1)` and `outputIterator(1)`
designate the element of index 1, which is 20; and `begin(7)`, for a point whose distance
is outside the range, is still the iterator at offset 7 from `itb`. -/
theorem C17_begin_at_point_designates_element_witness :
    (rangeOfThree.beginAt 1).deref [10, 20, 30] = (rangeOfThree.elements [10, 20, 30])[1]? ∧
    (rangeOfThree.outputIteratorAt 1).deref [10, 20, 30]
      = (rangeOfThree.elements [10, 20, 30])[1]? ∧
    (rangeOfThree.elements [10, 20, 30])[1]? = some 20 ∧
    (rangeOfThree.beginAt 7).pos = 0 + 7 :=
  ⟨((C17_begin_at_point_designates_element ⟨0⟩ ⟨3⟩ (fun p : Int => p) 1).2.2.2.2.2.2.2
      Nat [10, 20, 30] ⟨by decide, by decide, by decide⟩ (by decide) (by decide)).2.2.1,
   ((C17_begin_at_point_designates_element ⟨0⟩ ⟨3⟩ (fun p : Int => p) 1).2.2.2.2.2.2.2
      Nat [10, 20, 30] ⟨by decide, by decide, by decide⟩ (by decide) (by decide)).2.2.2.1,
   by decide,
   (C17_begin_at_point_designates_element ⟨0⟩ ⟨3⟩ (fun p : Int => p) 7).2.2.2.2.2.1⟩

/-- C18: evaluation of the code on the range over `[10, 20, 30]`. For the point at
distance 0, `rbegin(p)` dereferences to the last element 30, whereas `begin(p)` designates
the element of index 0, which is 10. For the point at distance 1, `rbegin(p)` has its base
one past `end()`: it designates the position 3, outside the sequence, where `begin(p)`
designates 20, and it does not lie in `[rbegin(), rend())`. For every range and point,
`rbegin(p)` designates the position `ite + dist(p) - 1`. -/
theorem C18_rbegin_at_point_is_not_at_the_point :
    (rangeOfThree.rbeginAt 0).deref [10, 20, 30] = some 30 ∧
    (rangeOfThree.beginAt 0).deref [10, 20, 30] = some 10 ∧
    (rangeOfThree.elements [10, 20, 30])[0]? = some 10 ∧
    (rangeOfThree.rbeginAt 1).target = ⟨3⟩ ∧
    (rangeOfThree.rbeginAt 1).deref [10, 20, 30] = none ∧
    (rangeOfThree.beginAt 1).deref [10, 20, 30] = some 20 ∧
    ¬ rangeOfThree.InsideReverse (rangeOfThree.rbeginAt 1) ∧
    (∀ (Point : Type) (r : SimpleRandomAccessRangeFromPoint Point) (p : Point),
      (r.rbeginAt p).target = ⟨r.myEnd.pos + r.myDistance p - 1⟩) := by
  refine ⟨by decide, by decide, by decide, by decide, by decide, by decide, ?_, ?_⟩
  · simp [SimpleRandomAccessRangeFromPoint.InsideReverse,
      SimpleRandomAccessRangeFromPoint.rbeginAt, SimpleRandomAccessRangeFromPoint.end_,
      rangeOfThree, SimpleRandomAccessRangeFromPoint.new, Iterator.add]
  · intro Point r p
    simp only [SimpleRandomAccessRangeFromPoint.rbeginAt, SimpleRandomAccessRangeFromPoint.end_,
      ReverseIterator.target, Iterator.add, Iterator.mk.injEq]
    omega

/-- C19: evaluation of the code on the non-empty range over `[10, 20, 30]`. Writing through
`routputIterator()` writes the position -1, and through `routputIterator(p)` for the point
at distance 1 the position -2: both are before `itb`, outside `[itb, ite)`. For every range
and every point at a distance at least 0, neither iterator designates an element of
`[itb, ite)`. -/
theorem C19_routputIterator_writes_before_the_range :
    rangeOfThree.routputIterator.target = ⟨-1⟩ ∧
    ¬ rangeOfThree.Inside rangeOfThree.routputIterator.target ∧
    rangeOfThree.routputIterator.deref [10, 20, 30] = none ∧
    (rangeOfThree.routputIteratorAt 1).target = ⟨-2⟩ ∧
    ¬ rangeOfThree.Inside (rangeOfThree.routputIteratorAt 1).target ∧
    (rangeOfThree.routputIteratorAt 1).deref [10, 20, 30] = none ∧
    (∀ (Point : Type) (r : SimpleRandomAccessRangeFromPoint Point),
      ¬ r.Inside r.routputIterator.target) ∧
    (∀ (Point : Type) (r : SimpleRandomAccessRangeFromPoint Point) (p : Point),
      0 ≤ r.myDistance p → ¬ r.Inside (r.routputIteratorAt p).target) := by
  refine ⟨by decide, ?_, by decide, by decide, ?_, by decide, ?_, ?_⟩
  · simp [SimpleRandomAccessRangeFromPoint.Inside, SimpleRandomAccessRangeFromPoint.routputIterator,
      rangeOfThree, SimpleRandomAccessRangeFromPoint.new, ReverseIterator.target, Iterator.add]
  · simp [SimpleRandomAccessRangeFromPoint.Inside,
      SimpleRandomAccessRangeFromPoint.routputIteratorAt, rangeOfThree,
      SimpleRandomAccessRangeFromPoint.new, ReverseIterator.target, ReverseIterator.add,
      Iterator.add]
  · intro Point r
    simp only [SimpleRandomAccessRangeFromPoint.Inside,
      SimpleRandomAccessRangeFromPoint.routputIterator, ReverseIterator.target, Iterator.add]
    omega
  · intro Point r p hp
    simp only [SimpleRandomAccessRangeFromPoint.Inside,
      SimpleRandomAccessRangeFromPoint.routputIteratorAt, ReverseIterator.target,
      ReverseIterator.add, Iterator.add]
    omega

/-! ## Draw order -/

theorem insertFarthestFirst_perm {α : Type} (depth : α → Rat) (a : α) (l : List α) :
    (insertFarthestFirst depth a l).Perm (a :: l) := by
  induction l with
  | nil => exact List.Perm.refl _
  | cons b rest ih =>
    unfold insertFarthestFirst
    split
    · exact List.Perm.refl _
    · exact (List.Perm.cons b ih).trans (List.Perm.swap a b rest)

theorem insertFarthestFirst_mem {α : Type} (depth : α → Rat) (a x : α) (l : List α)
    (hx : x ∈ insertFarthestFirst depth a l) : x = a ∨ x ∈ l := by
  have h := (insertFarthestFirst_perm depth a l).mem_iff.mp hx
  simpa using h

theorem insertFarthestFirst_sorted {α : Type} (depth : α → Rat) (a : α) (l : List α)
    (hl : l.Pairwise (fun x y => depth y ≤ depth x)) :
    (insertFarthestFirst depth a l).Pairwise (fun x y => depth y ≤ depth x) := by
  induction l with
  | nil => simp [insertFarthestFirst]
  | cons b rest ih =>
    have hb : ∀ y ∈ rest, depth y ≤ depth b := (List.pairwise_cons.mp hl).1
    have hrest := (List.pairwise_cons.mp hl).2
    unfold insertFarthestFirst
    split
    · next hlt =>
      refine List.pairwise_cons.mpr ⟨?_, hl⟩
      intro y hy
      rcases List.mem_cons.mp hy with rfl | hy'
      · exact le_of_lt hlt
      · exact le_trans (hb y hy') (le_of_lt hlt)
    · next hge =>
      refine List.pairwise_cons.mpr ⟨?_, ih hrest⟩
      intro y hy
      rcases insertFarthestFirst_mem depth a y rest hy with rfl | hy'
      · exact not_lt.mp hge
      · exact hb y hy'

theorem insertFarthestFirst_filter {α : Type} (depth : α → Rat) (a : α) (l : List α)
    (d : Rat) (hl : l.Pairwise (fun x y => depth y ≤ depth x)) :
    (insertFarthestFirst depth a l).filter (fun x => decide (depth x = d))
      = l.filter (fun x => decide (depth x = d)) ++ (if depth a = d then [a] else []) := by
  induction l with
  | nil =>
    by_cases ha : depth a = d <;> simp [insertFarthestFirst, ha]
  | cons b rest ih =>
    have hb : ∀ y ∈ rest, depth y ≤ depth b := (List.pairwise_cons.mp hl).1
    have hrest := (List.pairwise_cons.mp hl).2
    unfold insertFarthestFirst
    split
    · next hlt =>
      by_cases ha : depth a = d
      · have hnone : (b :: rest).filter (fun x => decide (depth x = d)) = [] := by
          apply List.filter_eq_nil_iff.mpr
          intro y hy
          have hle : depth y ≤ depth b := by
            rcases List.mem_cons.mp hy with rfl | hy'
            · exact le_refl _
            · exact hb y hy'
          have hne : depth y ≠ d := by
            intro h
            rw [h, ← ha] at hle
            exact absurd hlt (not_lt.mpr hle)
          simp [hne]
        rw [List.filter_cons, hnone]
        simp [ha]
      · rw [List.filter_cons]
        simp [ha]
    · rw [List.filter_cons, ih hrest, List.filter_cons]
      by_cases hbd : depth b = d <;> simp [hbd]

theorem foldl_insertFarthestFirst {α : Type} (depth : α → Rat) (l acc : List α) (d : Rat)
    (hacc : acc.Pairwise (fun x y => depth y ≤ depth x)) :
    (l.foldl (fun sorted a => insertFarthestFirst depth a sorted) acc).Perm (acc ++ l) ∧
    (l.foldl (fun sorted a => insertFarthestFirst depth a sorted) acc).Pairwise
      (fun x y => depth y ≤ depth x) ∧
    (l.foldl (fun sorted a => insertFarthestFirst depth a sorted) acc).filter
        (fun x => decide (depth x = d))
      = acc.filter (fun x => decide (depth x = d))
          ++ l.filter (fun x => decide (depth x = d)) := by
  induction l generalizing acc with
  | nil => simpa using hacc
  | cons a rest ih =>
    obtain ⟨hperm, hsorted, hfilter⟩ :=
      ih (insertFarthestFirst depth a acc) (insertFarthestFirst_sorted depth a acc hacc)
    refine ⟨?_, hsorted, ?_⟩
    · refine hperm.trans ?_
      refine ((insertFarthestFirst_perm depth a acc).append_right rest).trans ?_
      exact List.perm_middle.symm
    · rw [List.foldl_cons, hfilter, insertFarthestFirst_filter depth a acc d hacc,
        List.filter_cons]
      by_cases ha : depth a = d <;> simp [ha]

/-- C20: on export the primitives of a list whose depth-test flag is true are drawn in the
order of a stable sort on their projected depth, farthest from the camera first: the order
holds the same primitives, no primitive comes before one that is farther, and primitives
of equal depth keep their append order. The primitives of a list whose flag is false are
drawn in append order. The voxel lists of a scene are drawn list by list, each in the order
its own flag gives. -/
theorem C20_draw_order_is_stable_depth_sort {α : Type} (depth : α → Rat) (list : List α)
    (d : Rat) (viewer : DGtalCairo) (voxelDepth : voxelGL → Rat) (i : Nat) :
    (drawOrder depth true list).Perm list ∧
    (drawOrder depth true list).Pairwise (fun x y => depth y ≤ depth x) ∧
    (drawOrder depth true list).filter (fun x => decide (depth x = d))
      = list.filter (fun x => decide (depth x = d)) ∧
    drawOrder depth false list = list ∧
    (viewer.voxelDrawOrder voxelDepth)[i]?
      = (match viewer.myVoxelSetList[i]?, viewer.myListVoxelDepthTest[i]? with
          | some voxels, some flag => some (drawOrder voxelDepth flag voxels)
          | _, _ => none) := by
  obtain ⟨hperm, hsorted, hfilter⟩ :=
    foldl_insertFarthestFirst depth list [] d List.Pairwise.nil
  refine ⟨?_, ?_, ?_, rfl, ?_⟩
  · simpa [drawOrder, sortFarthestFirst] using hperm
  · simpa [drawOrder, sortFarthestFirst] using hsorted
  · simpa [drawOrder, sortFarthestFirst] using hfilter
  · simp only [DGtalCairo.voxelDrawOrder, List.getElem?_zipWith]
    cases viewer.myVoxelSetList[i]? <;> cases viewer.myListVoxelDepthTest[i]? <;> rfl

end DGtal
